import Mathlib

/-!
Verification of the eksctl infrastructure stack orchestration engine.

This file gives a shallow embedding of the parts of the repository that the
claims are about:

* the additive template merge of `StackCollection.AppendNewClusterStackResource`
  (src/pkg/actions/cluster/unowned.go, manager part, lines 428-533);
* the capacity defaulting/validation and ASG tag generation of
  `NodeGroupResourceSet.AddAllResources` / `addResourcesForNodeGroup`
  (src/pkg/cfn/builder/nodegroup.go);
* the legacy cluster-stack name detection `getClusterName` /
  `DescribeClusterStack` (src/pkg/actions/cluster/unowned.go, manager part);
* the deletion orchestration of `UnownedCluster.Delete`,
  `deleteAndWaitForNodegroupsDeletion` (src/pkg/actions/cluster/unowned.go) and
  `deleteSharedResources` / `deleteDeprecatedStacks`
  (src/pkg/actions/cluster/delete.go), modelled as a trace-producing function
  over an environment that fixes the outcome of every remote call.
-/

namespace Eksctl

/-! ## Association-list primitives used by the template merge model

A CloudFormation template section (`Resources`, `Outputs`, `Mappings`) is a
JSON object: a sequence of (logical name, value) pairs with unique keys.  The
value is kept as an opaque `String` (its serialized JSON text), which is what
"byte-identical" is about.  `lookupKey` is `gjson.Get` on a section,
`setKey` is `sjson.Set` at path `section.key` (replace the key if present,
append it otherwise). -/

def lookupKey : List (String × String) → String → Option String
  | [], _ => none
  | (k, v) :: rest, key => if k = key then some v else lookupKey rest key

def setKey : List (String × String) → String → String → List (String × String)
  | [], key, val => [(key, val)]
  | (k, v) :: rest, key, val =>
    if k = key then (k, val) :: rest else (k, v) :: setKey rest key val

/-- A CloudFormation template restricted to its three addressable sections. -/
structure Template where
  resources : List (String × String)
  outputs : List (String × String)
  mappings : List (String × String)
  deriving DecidableEq, Repr

/-! ## The additive merge of AppendNewClusterStackResource

`mergeGo` is the body of `iterFunc` in
src/pkg/actions/cluster/unowned.go (manager part, lines 477-486), iterated
over the entries of a desired section exactly as `gjson.Result.ForEach` does:
for each desired key, the *original* current section (`currentSet`) is
consulted; a key already present there is skipped, a key absent from it is
recorded in the `added` list and written into the evolving template via
`sjson.Set`. -/

def mergeGo (cur : List (String × String)) :
    List (String × String) → List (String × String) × List String →
    List (String × String) × List String
  | [], acc => acc
  | (k, v) :: rest, (t, added) =>
    if (lookupKey cur k).isSome then mergeGo cur rest (t, added)
    else mergeGo cur rest (setKey t k v, added ++ [k])

def mergeSection (cur des : List (String × String)) :
    List (String × String) × List String :=
  mergeGo cur des (cur, [])

/-- Embedding of `StackCollection.AppendNewClusterStackResource` (merge and decision part,
src/pkg/actions/cluster/unowned.go manager part, lines 476-533).  Returns
`(changed, resulting template, whether UpdateStack was issued)`: if no section
gained a new logical name it reports `changed = false` and does not update;
otherwise in plan mode it reports `changed = true` without updating, and in
apply mode it reports `changed = true` and issues the `UpdateStack` call. -/
def appendNewClusterStackResource (current desired : Template) (plan : Bool) :
    Bool × Template × Bool :=
  let r := mergeSection current.resources desired.resources
  let o := mergeSection current.outputs desired.outputs
  let m := mergeSection current.mappings desired.mappings
  let merged : Template := ⟨r.1, o.1, m.1⟩
  if r.2.isEmpty && o.2.isEmpty && m.2.isEmpty then (false, merged, false)
  else if plan then (true, merged, false)
  else (true, merged, true)

/-! ## Capacity bounds defaulting and validation

`addAllResourcesScaling` is the MinSize/MaxSize block of
`NodeGroupResourceSet.AddAllResources` (src/pkg/cfn/builder/nodegroup.go,
lines 89-115).  `api.DefaultNodeCount` lives outside the extracted sources, so
the hard-coded default is a parameter; the claims do not depend on its value.
The result is the final `(MinSize, MaxSize)` pair on success. -/

structure NodeGroupScaling where
  desiredCapacity : Option Int
  minSize : Option Int
  maxSize : Option Int
  deriving DecidableEq, Repr

def addAllResourcesScaling (defaultNodeCount : Int) (ng : NodeGroupScaling) :
    Except String (Int × Int) :=
  let minRes : Except String Int :=
    match ng.minSize with
    | none =>
      match ng.desiredCapacity with
      | none => .ok defaultNodeCount
      | some d => .ok d
    | some m =>
      match ng.desiredCapacity with
      | some d =>
        if d < m then
          .error s!"--nodes value ({d}) cannot be lower than --nodes-min value ({m})"
        else .ok m
      | none => .ok m
  match minRes with
  | .error e => .error e
  | .ok mn =>
    match ng.maxSize with
    | none =>
      match ng.desiredCapacity with
      | none => .ok (mn, mn)
      | some d => .ok (mn, d)
    | some mx =>
      match ng.desiredCapacity with
      | some d =>
        if mx < d then
          .error s!"--nodes value ({d}) cannot be greater than --nodes-max value ({mx})"
        else if mx < mn then
          .error s!"--nodes-min value ({mn}) cannot be greater than --nodes-max value ({mx})"
        else .ok (mn, mx)
      | none =>
        if mx < mn then
          .error s!"--nodes-min value ({mn}) cannot be greater than --nodes-max value ({mx})"
        else .ok (mn, mx)

/-! ## ASG tag generation and the tag cap

From src/pkg/cfn/builder/nodegroup.go: `MaximumTagNumber` (line 26),
`generateClusterAutoscalerTags` (lines 287-314) and the tag block of
`addResourcesForNodeGroup` (lines 243-279).  A tag is modelled as its
(key, value) pair; every generated tag carries `PropagateAtLaunch: true` in
the source, which is constant and therefore dropped here. -/

def MaximumTagNumber : Nat := 50

def catTaintsGo (dups : List (String × String)) :
    List (String × String) → Except String (List (String × String))
  | [] => .ok []
  | (k, v) :: rest =>
    match lookupKey dups k with
    | some w =>
      .error s!"duplicate key found for taints and labels with taint key=value: {k}={v}, and label: {k}={w}"
    | none =>
      match catTaintsGo (dups ++ [(k, v)]) rest with
      | .error e => .error e
      | .ok ts => .ok (("k8s.io/cluster-autoscaler/node-template/taints/" ++ k, v) :: ts)

def generateClusterAutoscalerTags (labels taints : List (String × String)) :
    Except String (List (String × String)) :=
  match catTaintsGo labels taints with
  | .error e => .error e
  | .ok ts =>
    .ok ((labels.map fun kv =>
      ("k8s.io/cluster-autoscaler/node-template/label/" ++ kv.1, kv.2)) ++ ts)

/-- The base ASG tags built at the top of the tag block of
`addResourcesForNodeGroup`: the Name tag, the cluster ownership tag, and the
two autoscaler discovery tags when the AutoScaler addon policy is enabled. -/
def ngBaseTags (clusterName nodeName : String) (autoScalerEnabled : Bool) :
    List (String × String) :=
  let tags := [("Name", nodeName), ("kubernetes.io/cluster/" ++ clusterName, "owned")]
  if autoScalerEnabled then
    tags ++ [("k8s.io/cluster-autoscaler/enabled", "true"),
             ("k8s.io/cluster-autoscaler/" ++ clusterName, "owned")]
  else tags

/-- The ASG `Tags` property computation of `addResourcesForNodeGroup`
(src/pkg/cfn/builder/nodegroup.go, lines 243-279), including the
`MaximumTagNumber` cap check that runs when `PropagateASGTags` is enabled. -/
def addResourcesForNodeGroupTags (clusterName nodeName : String)
    (autoScalerEnabled propagateASGTags : Bool)
    (labels taints : List (String × String)) :
    Except String (List (String × String)) :=
  let tags := ngBaseTags clusterName nodeName autoScalerEnabled
  if propagateASGTags then
    match generateClusterAutoscalerTags labels taints with
    | .error e => .error e
    | .ok clusterTags =>
      let tags := tags ++ clusterTags
      let n := tags.length
      let extra := clusterTags.length
      if MaximumTagNumber < n then
        .error s!"number of tags is exceeding the configured amount {MaximumTagNumber}, was: {n}. Due to desiredCapacity==0 we added an extra {extra} number of tags to ensure the nodegroup is scaled correctly"
      else .ok tags
  else .ok tags

/-! ## Go string helpers and getClusterName

`strHasPre`/`strHasSuf`/`strTrimPre`/`strTrimSuf` are Go's
`strings.HasPrefix`/`HasSuffix`/`TrimPrefix`/`TrimSuffix`. -/

def strHasPre (s p : String) : Bool := List.isPrefixOf p.toList s.toList

def strHasSuf (s p : String) : Bool := List.isSuffixOf p.toList s.toList

def strTrimPre (s p : String) : String :=
  if List.isPrefixOf p.toList s.toList then String.mk (s.toList.drop p.toList.length)
  else s

def strTrimSuf (s p : String) : String :=
  if List.isSuffixOf p.toList s.toList then
    String.mk (s.toList.take (s.toList.length - p.toList.length))
  else s

/-- Embedding of `api.ClusterNameTag` (defined outside the extracted sources; its exact
value does not affect any claim, only that it is a fixed tag key). -/
def clusterNameTag : String := "alpha.eksctl.io/cluster-name"

/-- Embedding of `api.OldClusterNameTag` (defined outside the extracted sources). -/
def oldClusterNameTag : String := "eksctl.cluster.k8s.io/v1alpha1/cluster-name"

/-- Embedding of `getClusterNameTag` (src/pkg/actions/cluster/unowned.go manager part,
lines 573-580): the value of the first tag whose key is the current or the
legacy cluster-name tag key, `""` if there is none. -/
def getClusterNameTag : List (String × String) → String
  | [] => ""
  | (k, v) :: rest =>
    if k = clusterNameTag ∨ k = oldClusterNameTag then v else getClusterNameTag rest

/-- Embedding of `getClusterName` (src/pkg/actions/cluster/unowned.go manager part,
lines 560-571).  Note the literal argument order of the legacy branch:
`strings.TrimPrefix("EKS-", strings.TrimSuffix(name, "-ControlPlane"))`. -/
def getClusterName (stackName : String) (tags : List (String × String)) : String :=
  if strHasSuf stackName "-cluster" && getClusterNameTag tags != "" then
    getClusterNameTag tags
  else if strHasPre stackName "EKS-" && strHasSuf stackName "-ControlPlane" then
    strTrimPre "EKS-" (strTrimSuf stackName "-ControlPlane")
  else ""

/-- A described CloudFormation stack, restricted to the fields
`DescribeClusterStack` reads. -/
structure StackInfo where
  stackName : String
  stackStatus : String
  tags : List (String × String)
  deriving DecidableEq, Repr

/-- Embedding of `StackCollection.DescribeClusterStack` (src/pkg/actions/cluster/unowned.go
manager part, lines 372-391): the first described stack that is not
`DELETE_COMPLETE` and for which `getClusterName` is non-empty. -/
def describeClusterStack : List StackInfo → Option StackInfo
  | [] => none
  | s :: rest =>
    if s.stackStatus = "DELETE_COMPLETE" then describeClusterStack rest
    else if getClusterName s.stackName s.tags != "" then some s
    else describeClusterStack rest

/-! ## The deletion orchestrator trace model

`UnownedCluster.Delete` and its helpers are embedded as functions from an
environment (fixing the outcome of every remote call) to a pair of the
ordered trace of performed remote operations and the returned error.  An
`Option String` field that is `some e` means the corresponding call fails
with error `e`; a `String → Option String` field gives the per-name outcome
of a family of calls. -/

/-- Observable remote operations of the deletion path, in the order the code
can perform them. -/
inductive Ev where
  | describeClusterCheck
  | listNodeGroupStacks
  | drain
  | vpcCniDelete
  | deleteFargateProfile (name : String)
  | deleteFargateStack
  | deprecatedStacksRun
  | sshDeleteKeys
  | kubeconfigDelete
  | elbCleanup
  | deleteFargateRoleStack
  | listRemoteNodeGroups
  | ngStackDelete (name : String) (wait ok : Bool)
  | unownedNGDelete (name : String) (ok : Bool)
  | iamOidcRun
  | deleteClusterCall
  | waitClusterDeleted
  | describeStacksCheck
  deriving DecidableEq, Repr

/-- A node-group stack as listed by `ListNodeGroupStacks`, restricted to the
field the deletion path keys on. -/
structure NodeGroupStack where
  nodeGroupName : String
  deriving DecidableEq, Repr

/-- Environment of `deleteSharedResources` / `deleteFargateProfiles` /
`deleteDeprecatedStacks` (src/pkg/actions/cluster/delete.go). -/
structure SharedEnv where
  listProfilesErr : Option String
  listUnauthorized : Bool
  profiles : List String
  deleteProfileErr : String → Option String
  fargateStackGetErr : Option String
  fargateStackExists : Bool
  fargateStackDeleteErr : Option String
  deprecatedBuildErr : Option String
  deprecatedTasks : List (Option String)
  elbErr : Option String

/-- Environment of `deleteIAMAndOIDC` (src/pkg/actions/cluster/unowned.go,
lines 163-215).  `oidcErr` is a hard `NewOpenIDConnectManager` error;
`oidcUnsupported` is the `UnsupportedOIDCError` case.  Each task-result list
entry is the error of one task of the corresponding sub-tree. -/
structure IAMEnv where
  oidcErr : Option String
  oidcUnsupported : Bool
  saTasksBuildErr : Option String
  saTaskResults : List (Option String)
  addonBuildErr : Option String
  addonTaskResults : List (Option String)

/-- Environment of `UnownedCluster.Delete` (src/pkg/actions/cluster/unowned.go,
lines 58-132) and its callees. -/
structure DeleteEnv where
  checkClusterErr : Option String
  canOperate : Bool
  listStacksErr : Option String
  ngStacks : List NodeGroupStack
  newClientSetErr : Option String
  drainErr : Option String
  shared : SharedEnv
  getFargateStackErr : Option String
  fargateRoleExists : Bool
  fargateRoleDeleteErr : Option String
  listRemoteNGsErr : Option String
  remoteNGs : List String
  ngTasksBuildErr : Option String
  ngStackDeleteErr : String → Option String
  unownedDeleteErr : String → Option String
  iam : IAMEnv
  deleteClusterErr : Option String
  waitClusterErr : Option String
  describeStacksErr : Option String
  postStacks : List (String × String)

/-- Embedding of `drainAllNodeGroups` (src/pkg/actions/cluster/delete.go, lines 168-195):
no-op when there are no node-group stacks; otherwise one drain call, followed
by the best-effort vpc-cni deletion only when draining succeeded. -/
def drainAllNodeGroups (allStacks : List NodeGroupStack) (drainErr : Option String) :
    List Ev × Option String :=
  if allStacks.isEmpty then ([], none)
  else
    match drainErr with
    | some e => ([Ev.drain], some e)
    | none => ([Ev.drain, Ev.vpcCniDelete], none)

/-- The sequential Fargate profile deletion loop of `deleteFargateProfiles`
(src/pkg/actions/cluster/delete.go, lines 102-111). -/
def deleteFargateProfilesGo (env : SharedEnv) :
    List String → List Ev × Option String
  | [] => ([], none)
  | p :: rest =>
    match env.deleteProfileErr p with
    | some e => ([Ev.deleteFargateProfile p], some e)
    | none =>
      let r := deleteFargateProfilesGo env rest
      (Ev.deleteFargateProfile p :: r.1, r.2)

/-- Embedding of `deleteFargateProfiles` (src/pkg/actions/cluster/delete.go, lines 79-126):
list profiles (an unauthorized listing error is ignored), delete each
sequentially with wait, then delete the Fargate stack if one exists. -/
def deleteFargateProfiles (env : SharedEnv) : List Ev × Option String :=
  match env.listProfilesErr with
  | some e => if env.listUnauthorized then ([], none) else ([], some e)
  | none =>
    let r := deleteFargateProfilesGo env env.profiles
    match r.2 with
    | some e => (r.1, some e)
    | none =>
      match env.fargateStackGetErr with
      | some e => (r.1, some e)
      | none =>
        if env.fargateStackExists then
          (r.1 ++ [Ev.deleteFargateStack], env.fargateStackDeleteErr)
        else (r.1, none)

/-- Embedding of `deleteDeprecatedStacks` (src/pkg/actions/cluster/delete.go,
lines 128-142): returns whether deprecated stacks were detected (also `true`
when building the task tree fails), the trace, and the error. -/
def deleteDeprecatedStacks (env : SharedEnv) : Bool × List Ev × Option String :=
  match env.deprecatedBuildErr with
  | some e => (true, [], some e)
  | none =>
    if 0 < env.deprecatedTasks.length then
      let errs := env.deprecatedTasks.filterMap id
      (true, [Ev.deprecatedStacksRun],
        if errs.isEmpty then none else some "failed to delete deprecated stacks")
    else (false, [], none)

/-- Embedding of `deleteSharedResources` (src/pkg/actions/cluster/delete.go, lines 38-69). -/
def deleteSharedResources (env : SharedEnv) (clusterOperable : Bool) :
    List Ev × Option String :=
  let fp := if clusterOperable then deleteFargateProfiles env else ([], none)
  match fp.2 with
  | some e => (fp.1, some e)
  | none =>
    let dep := deleteDeprecatedStacks env
    if dep.1 then (fp.1 ++ dep.2.1, dep.2.2)
    else
      let t := fp.1 ++ dep.2.1 ++ [Ev.sshDeleteKeys, Ev.kubeconfigDelete]
      if clusterOperable then (t ++ [Ev.elbCleanup], env.elbErr) else (t, none)

/-- Embedding of `deleteFargateRoleIfExists` (src/pkg/actions/cluster/unowned.go,
lines 134-148). -/
def deleteFargateRoleIfExists (env : DeleteEnv) : List Ev × Option String :=
  match env.getFargateStackErr with
  | some e => ([], some e)
  | none =>
    if env.fargateRoleExists then ([Ev.deleteFargateRoleStack], env.fargateRoleDeleteErr)
    else ([], none)

/-- The deletion tasks queued by `deleteAndWaitForNodegroupsDeletion`:
one stack-deletion task per node-group stack, then one API-based task per
remote managed node group whose name matches no stack (`isUnowned`). -/
inductive NGTask where
  | stack (name : String)
  | unowned (name : String)
  deriving DecidableEq, Repr

/-- The task list built in `deleteAndWaitForNodegroupsDeletion`
(src/pkg/actions/cluster/unowned.go, lines 269-289). -/
def ngDeletionTasks (allStacks : List NodeGroupStack) (remote : List String) :
    List NGTask :=
  allStacks.map (fun s => NGTask.stack s.nodeGroupName) ++
    (remote.filter fun n => allStacks.all fun s => s.nodeGroupName != n).map NGTask.unowned

def ngTaskResult (env : DeleteEnv) : NGTask → Option String
  | NGTask.stack n => env.ngStackDeleteErr n
  | NGTask.unowned n => env.unownedDeleteErr n

/-- The remote operation a queued node-group deletion task performs when run.
Stack-based deletions always wait (`wait` is the literal `true` at the call
site); the recorded `ok` flag is whether the deletion completed. -/
def ngTaskEvent (env : DeleteEnv) : NGTask → Ev
  | NGTask.stack n => Ev.ngStackDelete n true (env.ngStackDeleteErr n).isNone
  | NGTask.unowned n => Ev.unownedNGDelete n (env.unownedDeleteErr n).isNone

/-- Embedding of `deleteAndWaitForNodegroupsDeletion` (src/pkg/actions/cluster/unowned.go,
lines 252-298). -/
def deleteAndWaitForNodegroupsDeletion (env : DeleteEnv)
    (allStacks : List NodeGroupStack) : List Ev × Option String :=
  match env.listRemoteNGsErr with
  | some e => ([Ev.listRemoteNodeGroups], some e)
  | none =>
    if allStacks.isEmpty && env.remoteNGs.isEmpty then ([Ev.listRemoteNodeGroups], none)
    else
      match env.ngTasksBuildErr with
      | some e => ([Ev.listRemoteNodeGroups], some e)
      | none =>
        let tasks := ngDeletionTasks allStacks env.remoteNGs
        let errs := tasks.filterMap (ngTaskResult env)
        (Ev.listRemoteNodeGroups :: tasks.map (ngTaskEvent env),
          if errs.isEmpty then none else some "failed to delete nodegroup(s)")

/-- Embedding of `deleteIAMAndOIDC` (src/pkg/actions/cluster/unowned.go, lines 163-215). -/
def deleteIAMAndOIDC (env : IAMEnv) (clusterOperable : Bool) :
    List Ev × Option String :=
  match (if clusterOperable then env.oidcErr else none) with
  | some e => ([], some e)
  | none =>
    let oidcSupported := !env.oidcUnsupported
    match (if clusterOperable && oidcSupported then env.saTasksBuildErr else none) with
    | some e => ([], some e)
    | none =>
      let saTasks := if clusterOperable && oidcSupported then env.saTaskResults else []
      match env.addonBuildErr with
      | some e => ([], some e)
      | none =>
        let allTasks := saTasks ++ env.addonTaskResults
        if allTasks.isEmpty then ([], none)
        else
          let errs := allTasks.filterMap id
          ([Ev.iamOidcRun],
            if errs.isEmpty then none else some "failed to delete cluster IAM and OIDC")

/-- Embedding of `deleteCluster` (src/pkg/actions/cluster/unowned.go, lines 217-250): the
delete call, then, only when `wait` is set, the poll until not-found. -/
def deleteClusterStep (env : DeleteEnv) (wait : Bool) : List Ev × Option String :=
  match env.deleteClusterErr with
  | some e => ([Ev.deleteClusterCall], some e)
  | none =>
    if wait then ([Ev.deleteClusterCall, Ev.waitClusterDeleted], env.waitClusterErr)
    else ([Ev.deleteClusterCall], none)

/-- Embedding of `checkForUndeletedStacks` (src/pkg/actions/cluster/delete.go,
lines 144-166). -/
def checkForUndeletedStacks (env : DeleteEnv) : List Ev × Option String :=
  match env.describeStacksErr with
  | some e => ([Ev.describeStacksCheck], some e)
  | none =>
    let undeleted := (env.postStacks.filter fun s => s.2 != "DELETE_IN_PROGRESS").map Prod.fst
    ([Ev.describeStacksCheck],
      if undeleted.isEmpty then none else some "failed to delete all resources")

/-! The tail segments of `UnownedCluster.Delete`, one per remaining step, each
threading the accumulated trace.  `deleteFromShared` is Delete from the
`deleteSharedResources` call on, and so forth, mirroring the sequential body
of lines 92-131 of src/pkg/actions/cluster/unowned.go, including which steps
consult the `force` flag. -/

def deleteFromCluster (env : DeleteEnv) (wait : Bool) (t : List Ev) :
    List Ev × Option String :=
  let p := deleteClusterStep env wait
  match p.2 with
  | some e => (t ++ p.1, some e)
  | none =>
    let q := checkForUndeletedStacks env
    (t ++ p.1 ++ q.1, q.2)

def deleteFromIAM (env : DeleteEnv) (wait force clusterOperable : Bool)
    (t : List Ev) : List Ev × Option String :=
  let p := deleteIAMAndOIDC env.iam clusterOperable
  match p.2 with
  | some e =>
    if force then deleteFromCluster env wait (t ++ p.1) else (t ++ p.1, some e)
  | none => deleteFromCluster env wait (t ++ p.1)

def deleteFromNodegroups (env : DeleteEnv) (wait force clusterOperable : Bool)
    (t : List Ev) : List Ev × Option String :=
  let p := deleteAndWaitForNodegroupsDeletion env env.ngStacks
  match p.2 with
  | some e => (t ++ p.1, some e)
  | none => deleteFromIAM env wait force clusterOperable (t ++ p.1)

def deleteFromFargateRole (env : DeleteEnv) (wait force clusterOperable : Bool)
    (t : List Ev) : List Ev × Option String :=
  let p := deleteFargateRoleIfExists env
  match p.2 with
  | some e => (t ++ p.1, some e)
  | none => deleteFromNodegroups env wait force clusterOperable (t ++ p.1)

def deleteFromShared (env : DeleteEnv) (wait force clusterOperable : Bool)
    (t : List Ev) : List Ev × Option String :=
  let p := deleteSharedResources env.shared clusterOperable
  match p.2 with
  | some e =>
    if force then deleteFromFargateRole env wait force clusterOperable (t ++ p.1)
    else (t ++ p.1, some e)
  | none => deleteFromFargateRole env wait force clusterOperable (t ++ p.1)

/-- Embedding of `UnownedCluster.Delete` (src/pkg/actions/cluster/unowned.go,
lines 58-132). -/
def deleteUnownedCluster (env : DeleteEnv) (wait force : Bool) :
    List Ev × Option String :=
  match env.checkClusterErr with
  | some e => ([Ev.describeClusterCheck], some e)
  | none =>
    match env.listStacksErr with
    | some e => ([Ev.describeClusterCheck, Ev.listNodeGroupStacks], some e)
    | none =>
      let t1 := [Ev.describeClusterCheck, Ev.listNodeGroupStacks]
      if env.canOperate then
        match env.newClientSetErr with
        | some e => (t1, some e)
        | none =>
          let p := drainAllNodeGroups env.ngStacks env.drainErr
          match p.2 with
          | some e =>
            if force then deleteFromShared env wait force true (t1 ++ p.1)
            else (t1 ++ p.1, some e)
          | none => deleteFromShared env wait force true (t1 ++ p.1)
      else deleteFromShared env wait force false t1

/-- A shared-resource environment in which every remote call succeeds and
nothing is found to delete. -/
def allOkSharedEnv : SharedEnv :=
  { listProfilesErr := none, listUnauthorized := false, profiles := [],
    deleteProfileErr := fun _ => none, fargateStackGetErr := none,
    fargateStackExists := false, fargateStackDeleteErr := none,
    deprecatedBuildErr := none, deprecatedTasks := [], elbErr := none }

/-- An IAM/OIDC environment with one service-account task that succeeds. -/
def allOkIAMEnv : IAMEnv :=
  { oidcErr := none, oidcUnsupported := false, saTasksBuildErr := none,
    saTaskResults := [none], addonBuildErr := none, addonTaskResults := [] }

/-- A deletion environment for an operable cluster with two node-group stacks
in which every remote call succeeds. -/
def allOkDeleteEnv : DeleteEnv :=
  { checkClusterErr := none, canOperate := true, listStacksErr := none,
    ngStacks := [⟨"a"⟩, ⟨"b"⟩], newClientSetErr := none, drainErr := none,
    shared := allOkSharedEnv, getFargateStackErr := none,
    fargateRoleExists := false, fargateRoleDeleteErr := none,
    listRemoteNGsErr := none, remoteNGs := ["a", "b"], ngTasksBuildErr := none,
    ngStackDeleteErr := fun _ => none, unownedDeleteErr := fun _ => none,
    iam := allOkIAMEnv, deleteClusterErr := none, waitClusterErr := none,
    describeStacksErr := none, postStacks := [] }

/-- Events that may appear in the trace of any deletion step before the
cluster-delete call: none of them is the cluster-delete call itself, and any
node-group stack deletion among them carries `wait = true`. -/
def phaseEvOk (ev : Ev) : Prop :=
  ev ≠ Ev.deleteClusterCall ∧ ∀ n w ok, ev = Ev.ngStackDelete n w ok → w = true

/-- Every node-group stack deletion in the trace waited for completion. -/
def ngWaitTrue (t : List Ev) : Prop :=
  ∀ n w ok, Ev.ngStackDelete n w ok ∈ t → w = true

/-! ## Lemmas about the association-list merge -/

theorem lookupKey_setKey_self (l : List (String × String)) (k v : String) :
    lookupKey (setKey l k v) k = some v := by
  induction l with
  | nil => simp [setKey, lookupKey]
  | cons kv rest ih =>
    obtain ⟨k', v'⟩ := kv
    by_cases h : k' = k
    · simp [setKey, h, lookupKey]
    · simp [setKey, h, lookupKey, ih]

theorem lookupKey_setKey_ne (l : List (String × String)) (k v k' : String)
    (h : k' ≠ k) : lookupKey (setKey l k v) k' = lookupKey l k' := by
  induction l with
  | nil => simp [setKey, lookupKey, Ne.symm h]
  | cons kv rest ih =>
    obtain ⟨k0, v0⟩ := kv
    by_cases h0 : k0 = k
    · subst h0
      simp [setKey, lookupKey, Ne.symm h]
    · simp [setKey, h0, lookupKey, ih]

theorem lookupKey_isSome_of_mem {l : List (String × String)} {k v : String}
    (h : (k, v) ∈ l) : (lookupKey l k).isSome := by
  induction l with
  | nil => simp at h
  | cons kv rest ih =>
    obtain ⟨k0, v0⟩ := kv
    by_cases h0 : k0 = k
    · simp [lookupKey, h0]
    · rcases List.mem_cons.mp h with h1 | h1
      · exact absurd (congrArg Prod.fst h1).symm h0
      · simp [lookupKey, h0, ih h1]

theorem exists_mem_of_lookupKey_isSome {l : List (String × String)} {k : String}
    (h : (lookupKey l k).isSome) : ∃ v, (k, v) ∈ l := by
  induction l with
  | nil => simp [lookupKey] at h
  | cons kv rest ih =>
    obtain ⟨k0, v0⟩ := kv
    by_cases h0 : k0 = k
    · exact ⟨v0, by simp [h0]⟩
    · simp only [lookupKey, if_neg h0] at h
      obtain ⟨v, hv⟩ := ih h
      exact ⟨v, List.mem_cons_of_mem _ hv⟩

theorem mergeGo_fst_lookup (cur : List (String × String)) :
    ∀ (des : List (String × String)) (t : List (String × String))
      (added : List String) (k : String),
      (lookupKey cur k).isSome →
      lookupKey (mergeGo cur des (t, added)).1 k = lookupKey t k := by
  intro des
  induction des with
  | nil => intro t added k _; rfl
  | cons kv rest ih =>
    obtain ⟨k', v'⟩ := kv
    intro t added k hk
    by_cases h' : (lookupKey cur k').isSome
    · simpa [mergeGo, h'] using ih t added k hk
    · have hkk' : k ≠ k' := by
        intro h; rw [h] at hk; exact h' hk
      rw [show mergeGo cur ((k', v') :: rest) (t, added) =
          mergeGo cur rest (setKey t k' v', added ++ [k']) by simp [mergeGo, h'],
        ih (setKey t k' v') (added ++ [k']) k hk,
        lookupKey_setKey_ne t k' v' k hkk']

theorem mergeGo_fst_isSome_iff (cur : List (String × String)) :
    ∀ (des : List (String × String)) (t : List (String × String))
      (added : List String) (k : String),
      (lookupKey (mergeGo cur des (t, added)).1 k).isSome ↔
        ((lookupKey t k).isSome ∨
          ((lookupKey des k).isSome ∧ ¬(lookupKey cur k).isSome)) := by
  intro des
  induction des with
  | nil => intro t added k; simp [mergeGo, lookupKey]
  | cons kv rest ih =>
    obtain ⟨k', v'⟩ := kv
    intro t added k
    by_cases h' : (lookupKey cur k').isSome
    · rw [show mergeGo cur ((k', v') :: rest) (t, added) = mergeGo cur rest (t, added) by
        simp [mergeGo, h'], ih t added k]
      by_cases hk : k' = k
      · subst hk
        simp [lookupKey, h']
      · simp [lookupKey, hk]
    · rw [show mergeGo cur ((k', v') :: rest) (t, added) =
          mergeGo cur rest (setKey t k' v', added ++ [k']) by simp [mergeGo, h'],
        ih (setKey t k' v') (added ++ [k']) k]
      by_cases hk : k' = k
      · subst hk
        simp [lookupKey, lookupKey_setKey_self, h']
      · rw [lookupKey_setKey_ne t k' v' k (Ne.symm hk)]
        simp [lookupKey, hk]

theorem mergeGo_eq_of_all_present (cur : List (String × String)) :
    ∀ (des : List (String × String)) (t : List (String × String))
      (added : List String),
      (∀ kv ∈ des, (lookupKey cur kv.1).isSome) →
      mergeGo cur des (t, added) = (t, added) := by
  intro des
  induction des with
  | nil => intro t added _; rfl
  | cons kv rest ih =>
    obtain ⟨k', v'⟩ := kv
    intro t added h
    have h' : (lookupKey cur k').isSome := h (k', v') (List.mem_cons_self _ _)
    simp only [mergeGo, h', if_true]
    exact ih t added fun kv hkv => h kv (List.mem_cons_of_mem _ hkv)

theorem mergeGo_snd (cur : List (String × String)) :
    ∀ (des : List (String × String)) (t : List (String × String))
      (added : List String),
      (mergeGo cur des (t, added)).2 =
        added ++ (des.filter fun kv => !(lookupKey cur kv.1).isSome).map Prod.fst := by
  intro des
  induction des with
  | nil => intro t added; simp [mergeGo]
  | cons kv rest ih =>
    obtain ⟨k', v'⟩ := kv
    intro t added
    by_cases h' : (lookupKey cur k').isSome
    · have hne : ¬lookupKey cur k' = none := by
        simp [← Option.isSome_iff_ne_none, h']
      simp [mergeGo, h', ih, List.filter_cons, hne]
    · have heq : lookupKey cur k' = none := Option.not_isSome_iff_eq_none.mp h'
      simp [mergeGo, h', ih, List.filter_cons, heq]

theorem mergeSection_fst_lookup (cur des : List (String × String)) (k : String)
    (h : (lookupKey cur k).isSome) :
    lookupKey (mergeSection cur des).1 k = lookupKey cur k :=
  mergeGo_fst_lookup cur des cur [] k h

theorem mergeSection_fst_isSome_iff (cur des : List (String × String)) (k : String) :
    (lookupKey (mergeSection cur des).1 k).isSome ↔
      ((lookupKey cur k).isSome ∨ (lookupKey des k).isSome) := by
  rw [mergeSection, mergeGo_fst_isSome_iff cur des cur [] k]
  by_cases h : (lookupKey cur k).isSome <;> simp [h]

theorem mergeSection_eq_of_all_present (cur des : List (String × String))
    (h : ∀ kv ∈ des, (lookupKey cur kv.1).isSome) :
    mergeSection cur des = (cur, []) :=
  mergeGo_eq_of_all_present cur des cur [] h

theorem mergeSection_snd_nil_iff (cur des : List (String × String)) :
    (mergeSection cur des).2 = [] ↔ ∀ kv ∈ des, (lookupKey cur kv.1).isSome := by
  rw [mergeSection, mergeGo_snd cur des cur []]
  simp [List.filter_eq_nil_iff, Option.isSome_iff_ne_none]

theorem appendNew_merged (current desired : Template) (plan : Bool) :
    (appendNewClusterStackResource current desired plan).2.1 =
      ⟨(mergeSection current.resources desired.resources).1,
       (mergeSection current.outputs desired.outputs).1,
       (mergeSection current.mappings desired.mappings).1⟩ := by
  cases hc : ((mergeSection current.resources desired.resources).2.isEmpty &&
      (mergeSection current.outputs desired.outputs).2.isEmpty &&
      (mergeSection current.mappings desired.mappings).2.isEmpty) <;>
    cases plan <;> simp [appendNewClusterStackResource, hc]

/-! ## Claim theorems: the additive template merge -/

/-- C1: the merge performed by `AppendNewClusterStackResource` is
non-destructive: every logical name present in a section of the current
template keeps its current (byte-identical) value in the merged template, even
when the desired template computes a different value for it, and the merged
template contains a name if and only if the current or the desired section
contains it (only names absent from the current section are inserted). -/
theorem c1_additive_merge_nondestructive :
    ∀ (current desired : Template) (plan : Bool) (k : String),
      (((lookupKey current.resources k).isSome →
          lookupKey ((appendNewClusterStackResource current desired plan).2.1).resources k =
            lookupKey current.resources k) ∧
        ((lookupKey current.outputs k).isSome →
          lookupKey ((appendNewClusterStackResource current desired plan).2.1).outputs k =
            lookupKey current.outputs k) ∧
        ((lookupKey current.mappings k).isSome →
          lookupKey ((appendNewClusterStackResource current desired plan).2.1).mappings k =
            lookupKey current.mappings k)) ∧
      (((lookupKey ((appendNewClusterStackResource current desired plan).2.1).resources k).isSome ↔
          ((lookupKey current.resources k).isSome ∨ (lookupKey desired.resources k).isSome)) ∧
        ((lookupKey ((appendNewClusterStackResource current desired plan).2.1).outputs k).isSome ↔
          ((lookupKey current.outputs k).isSome ∨ (lookupKey desired.outputs k).isSome)) ∧
        ((lookupKey ((appendNewClusterStackResource current desired plan).2.1).mappings k).isSome ↔
          ((lookupKey current.mappings k).isSome ∨ (lookupKey desired.mappings k).isSome))) := by
  intro current desired plan k
  rw [appendNew_merged]
  exact ⟨⟨mergeSection_fst_lookup _ _ k, mergeSection_fst_lookup _ _ k,
      mergeSection_fst_lookup _ _ k⟩,
    mergeSection_fst_isSome_iff _ _ k, mergeSection_fst_isSome_iff _ _ k,
    mergeSection_fst_isSome_iff _ _ k⟩

theorem c1_additive_merge_nondestructive_witness :
    lookupKey ((appendNewClusterStackResource ⟨[("A", "1")], [], []⟩
        ⟨[("A", "2"), ("B", "3")], [], []⟩ false).2.1).resources "A" = some "1" :=
  (c1_additive_merge_nondestructive ⟨[("A", "1")], [], []⟩
      ⟨[("A", "2"), ("B", "3")], [], []⟩ false "A").1.1 (by decide)

/-- C2: the additive merge is idempotent: when the current template already
contains every logical name of the desired template in each of the three
sections, `AppendNewClusterStackResource` reports `changed = false`, leaves
the template untouched, and issues no `UpdateStack` call. -/
theorem c2_additive_merge_idempotent :
    ∀ (current desired : Template) (plan : Bool),
      (∀ kv ∈ desired.resources, (lookupKey current.resources kv.1).isSome) →
      (∀ kv ∈ desired.outputs, (lookupKey current.outputs kv.1).isSome) →
      (∀ kv ∈ desired.mappings, (lookupKey current.mappings kv.1).isSome) →
      appendNewClusterStackResource current desired plan = (false, current, false) := by
  intro current desired plan hr ho hm
  unfold appendNewClusterStackResource
  rw [mergeSection_eq_of_all_present _ _ hr, mergeSection_eq_of_all_present _ _ ho,
    mergeSection_eq_of_all_present _ _ hm]
  rfl

theorem c2_additive_merge_idempotent_witness :
    appendNewClusterStackResource ⟨[("A", "1"), ("B", "3")], [("O", "o")], []⟩
        ⟨[("A", "2"), ("B", "9")], [("O", "x")], []⟩ false =
      (false, ⟨[("A", "1"), ("B", "3")], [("O", "o")], []⟩, false) :=
  c2_additive_merge_idempotent ⟨[("A", "1"), ("B", "3")], [("O", "o")], []⟩
    ⟨[("A", "2"), ("B", "9")], [("O", "x")], []⟩ false
    (by decide) (by decide) (by decide)

/-- C9: plan mode never mutates: when `AppendNewClusterStackResource` runs
with `plan = true` and the merge finds at least one net-new resource, output,
or mapping, it reports `changed = true` and does not issue the `UpdateStack`
call. -/
theorem c9_plan_mode_no_mutation :
    ∀ (current desired : Template),
      ((∃ kv ∈ desired.resources, ¬(lookupKey current.resources kv.1).isSome) ∨
       (∃ kv ∈ desired.outputs, ¬(lookupKey current.outputs kv.1).isSome) ∨
       (∃ kv ∈ desired.mappings, ¬(lookupKey current.mappings kv.1).isSome)) →
      (appendNewClusterStackResource current desired true).1 = true ∧
      (appendNewClusterStackResource current desired true).2.2 = false := by
  intro current desired h
  unfold appendNewClusterStackResource
  have hcond : ¬((mergeSection current.resources desired.resources).2.isEmpty &&
      (mergeSection current.outputs desired.outputs).2.isEmpty &&
      (mergeSection current.mappings desired.mappings).2.isEmpty) = true := by
    intro hc
    simp only [Bool.and_eq_true, List.isEmpty_iff] at hc
    rcases h with ⟨kv, hmem, hnot⟩ | ⟨kv, hmem, hnot⟩ | ⟨kv, hmem, hnot⟩
    · exact hnot ((mergeSection_snd_nil_iff _ _).mp hc.1.1 kv hmem)
    · exact hnot ((mergeSection_snd_nil_iff _ _).mp hc.1.2 kv hmem)
    · exact hnot ((mergeSection_snd_nil_iff _ _).mp hc.2 kv hmem)
  simp only [hcond, if_false, if_true]
  exact ⟨rfl, rfl⟩

theorem c9_plan_mode_no_mutation_witness :
    (appendNewClusterStackResource ⟨[("A", "1")], [], []⟩
        ⟨[("A", "2"), ("B", "3")], [], []⟩ true).1 = true ∧
    (appendNewClusterStackResource ⟨[("A", "1")], [], []⟩
        ⟨[("A", "2"), ("B", "3")], [], []⟩ true).2.2 = false :=
  c9_plan_mode_no_mutation ⟨[("A", "1")], [], []⟩ ⟨[("A", "2"), ("B", "3")], [], []⟩
    (Or.inl ⟨("B", "3"), by decide, by decide⟩)

/-! ## Claim theorems: capacity bounds -/

/-- C3: `AddAllResources` defaults and validates the capacity bounds with
strict precedence: an unset `min` becomes `desired` (or the hard-coded
default when `desired` is also unset); an unset `max` becomes `desired` (or
`min` when `desired` is unset); and every explicitly-set inconsistent
combination (`desired < min`, `desired > max`, `max < min`) fails with an
error naming the conflicting values — including when all three bounds are
explicitly set — while every consistent combination of explicit values is
kept unclamped. -/
theorem c3_capacity_defaulting_and_validation :
    ∀ (dflt : Int),
      (∀ d : Int, addAllResourcesScaling dflt ⟨some d, none, none⟩ = .ok (d, d)) ∧
      (addAllResourcesScaling dflt ⟨none, none, none⟩ = .ok (dflt, dflt)) ∧
      (∀ m : Int, addAllResourcesScaling dflt ⟨none, some m, none⟩ = .ok (m, m)) ∧
      (∀ d m : Int, d < m →
        addAllResourcesScaling dflt ⟨some d, some m, none⟩ =
          .error s!"--nodes value ({d}) cannot be lower than --nodes-min value ({m})") ∧
      (∀ d mx : Int, mx < d →
        addAllResourcesScaling dflt ⟨some d, none, some mx⟩ =
          .error s!"--nodes value ({d}) cannot be greater than --nodes-max value ({mx})") ∧
      (∀ m mx : Int, mx < m →
        addAllResourcesScaling dflt ⟨none, some m, some mx⟩ =
          .error s!"--nodes-min value ({m}) cannot be greater than --nodes-max value ({mx})") ∧
      (∀ d m mx : Int, m ≤ d → d ≤ mx →
        addAllResourcesScaling dflt ⟨some d, some m, some mx⟩ = .ok (m, mx)) ∧
      (∀ d m mx : Int, d < m →
        addAllResourcesScaling dflt ⟨some d, some m, some mx⟩ =
          .error s!"--nodes value ({d}) cannot be lower than --nodes-min value ({m})") ∧
      (∀ d m mx : Int, m ≤ d → mx < d →
        addAllResourcesScaling dflt ⟨some d, some m, some mx⟩ =
          .error s!"--nodes value ({d}) cannot be greater than --nodes-max value ({mx})") ∧
      (∀ d m : Int, m ≤ d →
        addAllResourcesScaling dflt ⟨some d, some m, none⟩ = .ok (m, d)) ∧
      (∀ d mx : Int, d ≤ mx →
        addAllResourcesScaling dflt ⟨some d, none, some mx⟩ = .ok (d, mx)) ∧
      (∀ m mx : Int, m ≤ mx →
        addAllResourcesScaling dflt ⟨none, some m, some mx⟩ = .ok (m, mx)) := by
  intro dflt
  refine ⟨fun d => ?_, ?_, fun m => ?_, fun d m h => ?_, fun d mx h => ?_,
    fun m mx h => ?_, fun d m mx h1 h2 => ?_, fun d m mx h => ?_,
    fun d m mx h1 h2 => ?_, fun d m h => ?_, fun d mx h => ?_, fun m mx h => ?_⟩
  · simp [addAllResourcesScaling]
  · simp [addAllResourcesScaling]
  · simp [addAllResourcesScaling]
  · simp [addAllResourcesScaling, h]
  · simp [addAllResourcesScaling, h]
  · simp [addAllResourcesScaling, h]
  · simp [addAllResourcesScaling, show ¬d < m by omega, show ¬mx < d by omega,
      show ¬mx < m by omega]
  · simp [addAllResourcesScaling, h]
  · simp [addAllResourcesScaling, show ¬d < m by omega, h2]
  · simp [addAllResourcesScaling, show ¬d < m by omega]
  · simp [addAllResourcesScaling, show ¬mx < d by omega]
  · simp [addAllResourcesScaling, show ¬mx < m by omega]

theorem c3_capacity_defaulting_and_validation_witness :
    addAllResourcesScaling 2 ⟨some 5, some 10, none⟩ =
      .error "--nodes value (5) cannot be lower than --nodes-min value (10)" ∧
    addAllResourcesScaling 2 ⟨some 5, none, none⟩ = .ok (5, 5) ∧
    addAllResourcesScaling 2 ⟨some 5, some 10, some 20⟩ =
      .error "--nodes value (5) cannot be lower than --nodes-min value (10)" ∧
    addAllResourcesScaling 2 ⟨some 25, some 10, some 20⟩ =
      .error "--nodes value (25) cannot be greater than --nodes-max value (20)" :=
  ⟨(c3_capacity_defaulting_and_validation 2).2.2.2.1 5 10 (by decide),
   (c3_capacity_defaulting_and_validation 2).1 5,
   (c3_capacity_defaulting_and_validation 2).2.2.2.2.2.2.2.1 5 10 20 (by decide),
   (c3_capacity_defaulting_and_validation 2).2.2.2.2.2.2.2.2.1 25 10 20 (by decide)
     (by decide)⟩

/-! ## Claim theorems: the ASG tag cap -/

/-- C7: when `PropagateASGTags` is enabled and the generated autoscaler
label/taint propagation tags push the total ASG tag count above
`MaximumTagNumber` (50), `addResourcesForNodeGroup` fails with an error
naming the cap and the computed count; a successful result is always the
complete, untruncated tag list and is within the cap. -/
theorem c7_tag_cap_enforced :
    ∀ (clusterName nodeName : String) (autoScalerEnabled : Bool)
      (labels taints cts : List (String × String)) (n e : Nat),
      generateClusterAutoscalerTags labels taints = .ok cts →
      n = (ngBaseTags clusterName nodeName autoScalerEnabled ++ cts).length →
      e = cts.length →
      ((MaximumTagNumber < n →
          addResourcesForNodeGroupTags clusterName nodeName autoScalerEnabled true
              labels taints =
            .error s!"number of tags is exceeding the configured amount {MaximumTagNumber}, was: {n}. Due to desiredCapacity==0 we added an extra {e} number of tags to ensure the nodegroup is scaled correctly") ∧
        (∀ l, addResourcesForNodeGroupTags clusterName nodeName autoScalerEnabled true
              labels taints = .ok l →
          l = ngBaseTags clusterName nodeName autoScalerEnabled ++ cts ∧
            l.length ≤ MaximumTagNumber)) := by
  intro clusterName nodeName autoScalerEnabled labels taints cts n e hgen hn he
  subst hn he
  rw [List.length_append]
  constructor
  · intro hlt
    simp [addResourcesForNodeGroupTags, hgen, hlt]
  · intro l hl
    simp only [addResourcesForNodeGroupTags, hgen] at hl
    by_cases hlt : MaximumTagNumber <
        (ngBaseTags clusterName nodeName autoScalerEnabled).length + cts.length
    · simp [hlt] at hl
    · simp [hlt] at hl
      refine ⟨hl.symm, ?_⟩
      rw [← hl, List.length_append]
      omega

theorem c7_tag_cap_enforced_witness :
    addResourcesForNodeGroupTags "c" "n" false true
        ((List.range 49).map fun i => (toString i, "v")) [] =
      .error "number of tags is exceeding the configured amount 50, was: 51. Due to desiredCapacity==0 we added an extra 49 number of tags to ensure the nodegroup is scaled correctly" :=
  (c7_tag_cap_enforced "c" "n" false ((List.range 49).map fun i => (toString i, "v")) []
      ((List.range 49).map fun i =>
        ("k8s.io/cluster-autoscaler/node-template/label/" ++ toString i, "v"))
      51 49 rfl rfl rfl).1 (by decide)

/-! ## Claim theorems: legacy cluster-stack name detection -/

/-- C8 counterexample: for the legacy-convention stack name
`EKS-myCluster-ControlPlane` (with no ownership tags), `getClusterName`
returns the literal string `"EKS-"`, not the embedded cluster name
`"myCluster"` as the claim states: the arguments of the prefix trim in the
source are swapped. -/
theorem c8_legacy_name_counterexample :
    getClusterName "EKS-myCluster-ControlPlane" [] = "EKS-" ∧
    getClusterName "EKS-myCluster-ControlPlane" [] ≠ "myCluster" := by
  decide

/-- C8 (amended): for every stack whose name follows the legacy convention
`EKS-<name>-ControlPlane` with a non-empty embedded `<name>`, `getClusterName`
returns the constant string `"EKS-"` — not the embedded name — because the
source applies `strings.TrimPrefix("EKS-", ...)` with swapped arguments.
Since `"EKS-"` is non-empty, `DescribeClusterStack`'s fallback still selects
such pre-tagging stacks. -/
theorem c8_amended_legacy_detection :
    ∀ (name : String) (tags : List (String × String)), name ≠ "" →
      getClusterName ("EKS-" ++ name ++ "-ControlPlane") tags = "EKS-" ∧
      describeClusterStack [⟨"EKS-" ++ name ++ "-ControlPlane", "CREATE_COMPLETE", tags⟩] =
        some ⟨"EKS-" ++ name ++ "-ControlPlane", "CREATE_COMPLETE", tags⟩ := by
  intro name tags h
  have hdata : ("EKS-" ++ name ++ "-ControlPlane").toList =
      ("EKS-".toList ++ name.toList) ++ "-ControlPlane".toList := by
    simp [String.toList, String.data_append]
  have hnl : name.toList ≠ [] := fun hl => h (String.ext hl)
  have hsufCP : "-ControlPlane".toList <:+ ("EKS-" ++ name ++ "-ControlPlane").toList := by
    rw [hdata]; exact ⟨"EKS-".toList ++ name.toList, rfl⟩
  have hcl : ¬("-cluster".toList <:+ ("EKS-" ++ name ++ "-ControlPlane").toList) := by
    intro hsuf
    rcases List.suffix_or_suffix_of_suffix hsuf hsufCP with h1 | h1
    · exact absurd h1 (by decide)
    · exact absurd h1 (by decide)
  have hNoCluster : strHasSuf ("EKS-" ++ name ++ "-ControlPlane") "-cluster" = false := by
    rw [strHasSuf]
    cases hb : List.isSuffixOf "-cluster".toList (("EKS-" ++ name ++ "-ControlPlane").toList)
    · rfl
    · exact absurd (List.isSuffixOf_iff_suffix.mp hb) hcl
  have hPre : strHasPre ("EKS-" ++ name ++ "-ControlPlane") "EKS-" = true := by
    rw [strHasPre, List.isPrefixOf_iff_prefix, hdata]
    exact ⟨name.toList ++ "-ControlPlane".toList, by simp⟩
  have hSuf : strHasSuf ("EKS-" ++ name ++ "-ControlPlane") "-ControlPlane" = true := by
    rw [strHasSuf, List.isSuffixOf_iff_suffix]
    exact hsufCP
  have hTrimSuf : strTrimSuf ("EKS-" ++ name ++ "-ControlPlane") "-ControlPlane" =
      String.mk ("EKS-".toList ++ name.toList) := by
    rw [strTrimSuf, if_pos (List.isSuffixOf_iff_suffix.mpr hsufCP), hdata]
    rw [List.length_append, Nat.add_sub_cancel, List.take_left]
  have hTrimPre : strTrimPre "EKS-" (String.mk ("EKS-".toList ++ name.toList)) = "EKS-" := by
    rw [strTrimPre]
    have hnp : ¬List.isPrefixOf (String.mk ("EKS-".toList ++ name.toList)).toList
        "EKS-".toList = true := by
      intro hb
      have hpre2 := List.isPrefixOf_iff_prefix.mp hb
      have hle := hpre2.length_le
      have hmk : (String.mk ("EKS-".toList ++ name.toList)).toList =
          "EKS-".toList ++ name.toList := rfl
      rw [hmk, List.length_append, show ("EKS-".toList).length = 4 from rfl] at hle
      exact hnl (List.length_eq_zero.mp (by omega))
    rw [if_neg hnp]
  have hmain : getClusterName ("EKS-" ++ name ++ "-ControlPlane") tags = "EKS-" := by
    rw [getClusterName, hNoCluster]
    simp only [Bool.false_and, Bool.false_eq_true, if_false, hPre, hSuf, Bool.and_self,
      if_true, hTrimSuf, hTrimPre]
  refine ⟨hmain, ?_⟩
  rw [describeClusterStack]
  simp [hmain]

theorem c8_amended_legacy_detection_witness :
    getClusterName ("EKS-" ++ "foo" ++ "-ControlPlane") [] = "EKS-" ∧
    describeClusterStack [⟨"EKS-" ++ "foo" ++ "-ControlPlane", "CREATE_COMPLETE", []⟩] =
      some ⟨"EKS-" ++ "foo" ++ "-ControlPlane", "CREATE_COMPLETE", []⟩ :=
  c8_amended_legacy_detection "foo" [] (by decide)

/-! ## Lemmas about the deletion phases -/

theorem deleteDeprecatedStacks_fst (env : SharedEnv) :
    (deleteDeprecatedStacks env).1 = true ↔
      (env.deprecatedBuildErr ≠ none ∨ 0 < env.deprecatedTasks.length) := by
  rcases hb : env.deprecatedBuildErr with _ | e
  · by_cases hl : 0 < env.deprecatedTasks.length
    · simp [deleteDeprecatedStacks, hb, hl]
    · simp [deleteDeprecatedStacks, hb, hl]
  · simp [deleteDeprecatedStacks, hb]

theorem deleteDeprecatedStacks_evs (env : SharedEnv) (ev : Ev)
    (h : ev ∈ (deleteDeprecatedStacks env).2.1) : ev = Ev.deprecatedStacksRun := by
  rcases hb : env.deprecatedBuildErr with _ | e
  · by_cases hl : 0 < env.deprecatedTasks.length
    · simp [deleteDeprecatedStacks, hb, hl] at h
      exact h
    · simp [deleteDeprecatedStacks, hb, hl] at h
  · simp [deleteDeprecatedStacks, hb] at h

theorem deleteFargateProfilesGo_evs (env : SharedEnv) :
    ∀ (l : List String) (ev : Ev), ev ∈ (deleteFargateProfilesGo env l).1 →
      ∃ p, ev = Ev.deleteFargateProfile p := by
  intro l
  induction l with
  | nil => intro ev hev; simp [deleteFargateProfilesGo] at hev
  | cons p rest ih =>
    intro ev hev
    rcases hp : env.deleteProfileErr p with _ | e
    · simp [deleteFargateProfilesGo, hp] at hev
      rcases hev with hev | hev
      · exact ⟨p, hev⟩
      · exact ih ev hev
    · simp [deleteFargateProfilesGo, hp] at hev
      exact ⟨p, hev⟩

theorem deleteFargateProfiles_evs (env : SharedEnv) (ev : Ev)
    (h : ev ∈ (deleteFargateProfiles env).1) :
    (∃ p, ev = Ev.deleteFargateProfile p) ∨ ev = Ev.deleteFargateStack := by
  rcases hl : env.listProfilesErr with _ | e
  · simp only [deleteFargateProfiles, hl] at h
    rcases hr : (deleteFargateProfilesGo env env.profiles).2 with _ | e
    · simp only [hr] at h
      rcases hg : env.fargateStackGetErr with _ | e
      · simp only [hg] at h
        by_cases hx : env.fargateStackExists
        · simp only [hx, if_true, List.mem_append, List.mem_singleton] at h
          rcases h with h | h
          · exact Or.inl (deleteFargateProfilesGo_evs env env.profiles ev h)
          · exact Or.inr h
        · simp only [hx, if_false] at h
          exact Or.inl (deleteFargateProfilesGo_evs env env.profiles ev h)
      · simp only [hg] at h
        exact Or.inl (deleteFargateProfilesGo_evs env env.profiles ev h)
    · simp only [hr] at h
      exact Or.inl (deleteFargateProfilesGo_evs env env.profiles ev h)
  · by_cases hu : env.listUnauthorized <;> simp [deleteFargateProfiles, hl, hu] at h

/-! ## Claim theorems: unowned node-group detection -/

/-- C6: in `deleteAndWaitForNodegroupsDeletion`, a remote managed node group
gets an API-based "unowned" deletion task appended if and only if its name
equals no `NodeGroupName` in the node-group stack list; for remote list
`{A, B}` and a stack list covering only `{A}` the queue holds exactly one
unowned deletion task, for `B`. -/
theorem c6_unowned_detection_set_difference :
    (∀ (allStacks : List NodeGroupStack) (remote : List String) (n : String),
        NGTask.unowned n ∈ ngDeletionTasks allStacks remote ↔
          (n ∈ remote ∧ ∀ s ∈ allStacks, s.nodeGroupName ≠ n)) ∧
    ngDeletionTasks [⟨"A"⟩] ["A", "B"] = [NGTask.stack "A", NGTask.unowned "B"] := by
  constructor
  · intro allStacks remote n
    simp [ngDeletionTasks, List.mem_filter, List.all_eq_true, bne_iff_ne]
  · rfl

theorem c6_unowned_detection_set_difference_witness :
    NGTask.unowned "B" ∈ ngDeletionTasks [⟨"A"⟩] ["A", "B"] :=
  (c6_unowned_detection_set_difference.1 [⟨"A"⟩] ["A", "B"] "B").mpr
    ⟨by decide, by decide⟩

/-! ## Claim theorems: deprecated-stack short-circuit -/

/-- C10: if deprecated/legacy stacks are detected during shared-resource
deletion (including when building their deletion tasks fails),
`deleteSharedResources` returns right after the deprecated-stack tasks run,
propagating their aggregate result, and skips SSH key deletion, kubeconfig
cleanup, and load-balancer cleanup for that invocation; those later cleanups
run only when no deprecated stacks exist. -/
theorem c10_deprecated_stacks_short_circuit :
    ∀ (env : SharedEnv) (clusterOperable : Bool),
      ((env.deprecatedBuildErr ≠ none ∨ 0 < env.deprecatedTasks.length) →
        Ev.sshDeleteKeys ∉ (deleteSharedResources env clusterOperable).1 ∧
        Ev.kubeconfigDelete ∉ (deleteSharedResources env clusterOperable).1 ∧
        Ev.elbCleanup ∉ (deleteSharedResources env clusterOperable).1) ∧
      ((if clusterOperable then deleteFargateProfiles env else ([], none)).2 = none →
        env.deprecatedBuildErr = none → 0 < env.deprecatedTasks.length →
        deleteSharedResources env clusterOperable =
          ((if clusterOperable then deleteFargateProfiles env else ([], none)).1 ++
              [Ev.deprecatedStacksRun],
            if (env.deprecatedTasks.filterMap id).isEmpty then none
            else some "failed to delete deprecated stacks")) ∧
      (Ev.sshDeleteKeys ∈ (deleteSharedResources env clusterOperable).1 →
        env.deprecatedBuildErr = none ∧ env.deprecatedTasks.length = 0) := by
  intro env clusterOperable
  have hfpNoShape : ∀ ev ∈ (if clusterOperable then deleteFargateProfiles env
      else (([], none) : List Ev × Option String)).1,
      (∃ p, ev = Ev.deleteFargateProfile p) ∨ ev = Ev.deleteFargateStack := by
    intro ev hev
    cases clusterOperable
    · simp at hev
    · exact deleteFargateProfiles_evs env ev (by simpa using hev)
  refine ⟨?_, ?_, ?_⟩
  · intro hdet
    have hdep : (deleteDeprecatedStacks env).1 = true :=
      (deleteDeprecatedStacks_fst env).mpr hdet
    rcases hfp : (if clusterOperable then deleteFargateProfiles env
        else (([], none) : List Ev × Option String)).2 with _ | e
    · have htr : (deleteSharedResources env clusterOperable).1 =
          (if clusterOperable then deleteFargateProfiles env
            else (([], none) : List Ev × Option String)).1 ++
            (deleteDeprecatedStacks env).2.1 := by
        simp [deleteSharedResources, hfp, hdep]
      rw [htr]
      refine ⟨?_, ?_, ?_⟩ <;>
        · intro hmem
          rcases List.mem_append.mp hmem with hmem | hmem
          · rcases hfpNoShape _ hmem with ⟨p, hp⟩ | hp <;> simp_all
          · have := deleteDeprecatedStacks_evs env _ hmem
            simp_all
    · have htr : (deleteSharedResources env clusterOperable).1 =
          (if clusterOperable then deleteFargateProfiles env
            else (([], none) : List Ev × Option String)).1 := by
        simp [deleteSharedResources, hfp]
      rw [htr]
      refine ⟨?_, ?_, ?_⟩ <;>
        · intro hmem
          rcases hfpNoShape _ hmem with ⟨p, hp⟩ | hp <;> simp_all
  · intro hfp hbuild hlen
    have hdep : deleteDeprecatedStacks env =
        (true, [Ev.deprecatedStacksRun],
          if (env.deprecatedTasks.filterMap id).isEmpty then none
          else some "failed to delete deprecated stacks") := by
      simp [deleteDeprecatedStacks, hbuild, hlen]
    simp [deleteSharedResources, hfp, hdep]
  · intro hmem
    rcases hfp : (if clusterOperable then deleteFargateProfiles env
        else (([], none) : List Ev × Option String)).2 with _ | e
    · by_cases hdep : (deleteDeprecatedStacks env).1 = true
      · have htr : (deleteSharedResources env clusterOperable).1 =
            (if clusterOperable then deleteFargateProfiles env
              else (([], none) : List Ev × Option String)).1 ++
              (deleteDeprecatedStacks env).2.1 := by
          simp [deleteSharedResources, hfp, hdep]
        rw [htr] at hmem
        rcases List.mem_append.mp hmem with hmem | hmem
        · rcases hfpNoShape _ hmem with ⟨p, hp⟩ | hp <;> simp_all
        · have := deleteDeprecatedStacks_evs env _ hmem
          simp_all
      · have hnot := (not_iff_not.mpr (deleteDeprecatedStacks_fst env)).mp
          (by simpa using hdep)
        push_neg at hnot
        exact ⟨hnot.1, by omega⟩
    · have htr : (deleteSharedResources env clusterOperable).1 =
          (if clusterOperable then deleteFargateProfiles env
            else (([], none) : List Ev × Option String)).1 := by
        simp [deleteSharedResources, hfp]
      rw [htr] at hmem
      rcases hfpNoShape _ hmem with ⟨p, hp⟩ | hp <;> simp_all

theorem c10_deprecated_stacks_short_circuit_witness :
    deleteSharedResources
        { listProfilesErr := none, listUnauthorized := false, profiles := [],
          deleteProfileErr := fun _ => none, fargateStackGetErr := none,
          fargateStackExists := false, fargateStackDeleteErr := none,
          deprecatedBuildErr := none, deprecatedTasks := [some "boom"],
          elbErr := none } true =
      ([Ev.deprecatedStacksRun], some "failed to delete deprecated stacks") :=
  (c10_deprecated_stacks_short_circuit
      { listProfilesErr := none, listUnauthorized := false, profiles := [],
        deleteProfileErr := fun _ => none, fargateStackGetErr := none,
        fargateStackExists := false, fargateStackDeleteErr := none,
        deprecatedBuildErr := none, deprecatedTasks := [some "boom"],
        elbErr := none } true).2.1 rfl rfl (by decide)

/-! ## Event-shape lemmas for the deletion steps before the cluster delete -/

theorem drainAllNodeGroups_evOk (allStacks : List NodeGroupStack)
    (drainErr : Option String) :
    ∀ ev ∈ (drainAllNodeGroups allStacks drainErr).1, phaseEvOk ev := by
  intro ev hev
  by_cases h : allStacks.isEmpty
  · simp [drainAllNodeGroups, h] at hev
  · rcases hd : drainErr with _ | e <;> simp [drainAllNodeGroups, h, hd] at hev
    · rcases hev with rfl | rfl <;> simp [phaseEvOk]
    · subst hev; simp [phaseEvOk]

theorem deleteSharedResources_evOk (env : SharedEnv) (clusterOperable : Bool) :
    ∀ ev ∈ (deleteSharedResources env clusterOperable).1, phaseEvOk ev := by
  have hdepOk : ∀ e ∈ (deleteDeprecatedStacks env).2.1, phaseEvOk e := by
    intro e he
    have h := deleteDeprecatedStacks_evs env e he
    subst h; simp [phaseEvOk]
  have hfpOk : ∀ e ∈ (if clusterOperable then deleteFargateProfiles env
      else (([], none) : List Ev × Option String)).1, phaseEvOk e := by
    intro e he
    cases clusterOperable
    · simp at he
    · rcases deleteFargateProfiles_evs env e (by simpa using he) with ⟨p, rfl⟩ | rfl <;>
        simp [phaseEvOk]
  intro ev hev
  rcases hfp : (if clusterOperable then deleteFargateProfiles env
      else (([], none) : List Ev × Option String)).2 with _ | e0
  · by_cases hdep : (deleteDeprecatedStacks env).1 = true
    · have htr : (deleteSharedResources env clusterOperable).1 =
          (if clusterOperable then deleteFargateProfiles env
            else (([], none) : List Ev × Option String)).1 ++
            (deleteDeprecatedStacks env).2.1 := by
        simp [deleteSharedResources, hfp, hdep]
      rw [htr] at hev
      rcases List.mem_append.mp hev with h | h
      · exact hfpOk ev h
      · exact hdepOk ev h
    · cases hop : clusterOperable
      · have htr : (deleteSharedResources env false).1 =
            (deleteDeprecatedStacks env).2.1 ++ [Ev.sshDeleteKeys, Ev.kubeconfigDelete] := by
          rw [hop] at hfp
          simp [deleteSharedResources, hfp, hdep]
        rw [hop] at hev
        rw [htr] at hev
        rcases List.mem_append.mp hev with h | h
        · exact hdepOk ev h
        · simp only [List.mem_cons, List.not_mem_nil, or_false] at h
          rcases h with rfl | rfl <;> simp [phaseEvOk]
      · have htr : (deleteSharedResources env true).1 =
            (deleteFargateProfiles env).1 ++ (deleteDeprecatedStacks env).2.1 ++
              [Ev.sshDeleteKeys, Ev.kubeconfigDelete] ++ [Ev.elbCleanup] := by
          rw [hop] at hfp
          simp only [if_true] at hfp
          simp [deleteSharedResources, hfp, hdep]
        rw [hop] at hev
        rw [htr] at hev
        rw [hop] at hfpOk
        simp only [List.mem_append] at hev
        rcases hev with ((h | h) | h) | h
        · exact hfpOk ev (by simpa using h)
        · exact hdepOk ev h
        · simp only [List.mem_cons, List.not_mem_nil, or_false] at h
          rcases h with rfl | rfl <;> simp [phaseEvOk]
        · simp only [List.mem_singleton] at h
          subst h; simp [phaseEvOk]
  · have htr : (deleteSharedResources env clusterOperable).1 =
        (if clusterOperable then deleteFargateProfiles env
          else (([], none) : List Ev × Option String)).1 := by
      simp [deleteSharedResources, hfp]
    rw [htr] at hev
    exact hfpOk ev hev

theorem deleteFargateRoleIfExists_evOk (env : DeleteEnv) :
    ∀ ev ∈ (deleteFargateRoleIfExists env).1, phaseEvOk ev := by
  intro ev hev
  rcases hg : env.getFargateStackErr with _ | e
  · by_cases hx : env.fargateRoleExists <;>
      simp [deleteFargateRoleIfExists, hg, hx] at hev
    subst hev; simp [phaseEvOk]
  · simp [deleteFargateRoleIfExists, hg] at hev

theorem deleteAndWaitForNodegroupsDeletion_evOk (env : DeleteEnv)
    (allStacks : List NodeGroupStack) :
    ∀ ev ∈ (deleteAndWaitForNodegroupsDeletion env allStacks).1, phaseEvOk ev := by
  intro ev hev
  rcases hl : env.listRemoteNGsErr with _ | e
  · by_cases hsc : (allStacks.isEmpty && env.remoteNGs.isEmpty) = true
    · simp [deleteAndWaitForNodegroupsDeletion, hl, hsc] at hev
      subst hev; simp [phaseEvOk]
    · rcases hb : env.ngTasksBuildErr with _ | e
      · simp [deleteAndWaitForNodegroupsDeletion, hl, hsc, hb] at hev
        rcases hev with rfl | ⟨task, _, rfl⟩
        · simp [phaseEvOk]
        · cases task <;> simp [phaseEvOk, ngTaskEvent]
      · simp [deleteAndWaitForNodegroupsDeletion, hl, hsc, hb] at hev
        subst hev; simp [phaseEvOk]
  · simp [deleteAndWaitForNodegroupsDeletion, hl] at hev
    subst hev; simp [phaseEvOk]

theorem deleteIAMAndOIDC_evs (env : IAMEnv) (clusterOperable : Bool) :
    ∀ ev ∈ (deleteIAMAndOIDC env clusterOperable).1, ev = Ev.iamOidcRun := by
  intro ev hev
  simp only [deleteIAMAndOIDC] at hev
  repeat' split at hev
  all_goals simp_all

theorem deleteIAMAndOIDC_evOk (env : IAMEnv) (clusterOperable : Bool) :
    ∀ ev ∈ (deleteIAMAndOIDC env clusterOperable).1, phaseEvOk ev := by
  intro ev hev
  have h := deleteIAMAndOIDC_evs env clusterOperable ev hev
  subst h; simp [phaseEvOk]

theorem deleteClusterStep_evs (env : DeleteEnv) (wait : Bool) :
    ∀ ev ∈ (deleteClusterStep env wait).1,
      ev = Ev.deleteClusterCall ∨ ev = Ev.waitClusterDeleted := by
  intro ev hev
  rcases hd : env.deleteClusterErr with _ | e <;> cases wait <;>
    simp [deleteClusterStep, hd] at hev <;> tauto

theorem deleteClusterStep_hasCall (env : DeleteEnv) (wait : Bool) :
    Ev.deleteClusterCall ∈ (deleteClusterStep env wait).1 := by
  rcases hd : env.deleteClusterErr with _ | e <;> cases wait <;>
    simp [deleteClusterStep, hd]

theorem checkForUndeletedStacks_evs (env : DeleteEnv) :
    ∀ ev ∈ (checkForUndeletedStacks env).1, ev = Ev.describeStacksCheck := by
  intro ev hev
  rcases hd : env.describeStacksErr with _ | e <;>
    simp [checkForUndeletedStacks, hd] at hev <;> exact hev

/-! ## Success and failure of the node-group deletion phase -/

theorem ngPhase_success_events (env : DeleteEnv) (allStacks : List NodeGroupStack)
    (h : (deleteAndWaitForNodegroupsDeletion env allStacks).2 = none) :
    ∀ s ∈ allStacks, Ev.ngStackDelete s.nodeGroupName true true ∈
      (deleteAndWaitForNodegroupsDeletion env allStacks).1 := by
  intro s hs
  rcases hl : env.listRemoteNGsErr with _ | e
  · by_cases hsc : (allStacks.isEmpty && env.remoteNGs.isEmpty) = true
    · have hsc' := hsc
      simp only [Bool.and_eq_true, List.isEmpty_iff] at hsc'
      obtain ⟨h1, _⟩ := hsc'
      subst h1
      simp at hs
    · rcases hb : env.ngTasksBuildErr with _ | e
      · simp only [deleteAndWaitForNodegroupsDeletion, hl, hsc, hb, if_false,
          Bool.false_eq_true] at h ⊢
        have herrs : (ngDeletionTasks allStacks env.remoteNGs).filterMap
            (ngTaskResult env) = [] := by
          by_cases hx : ((ngDeletionTasks allStacks env.remoteNGs).filterMap
              (ngTaskResult env)).isEmpty
          · exact List.isEmpty_iff.mp hx
          · simp [hx] at h
        have htask : NGTask.stack s.nodeGroupName ∈ ngDeletionTasks allStacks env.remoteNGs :=
          List.mem_append_left _ (List.mem_map.mpr ⟨s, hs, rfl⟩)
        have hok : env.ngStackDeleteErr s.nodeGroupName = none := by
          have := (List.filterMap_eq_nil_iff.mp herrs) _ htask
          simpa [ngTaskResult] using this
        refine List.mem_cons.mpr
          (Or.inr (List.mem_map.mpr ⟨NGTask.stack s.nodeGroupName, htask, ?_⟩))
        simp [ngTaskEvent, hok]
      · simp [deleteAndWaitForNodegroupsDeletion, hl, hsc, hb] at h
  · simp [deleteAndWaitForNodegroupsDeletion, hl] at h

theorem ngPhase_fail (env : DeleteEnv) (allStacks : List NodeGroupStack)
    (s : NodeGroupStack) (hs : s ∈ allStacks)
    (herr : env.ngStackDeleteErr s.nodeGroupName ≠ none) :
    (deleteAndWaitForNodegroupsDeletion env allStacks).2 ≠ none := by
  rcases hl : env.listRemoteNGsErr with _ | e
  · by_cases hsc : (allStacks.isEmpty && env.remoteNGs.isEmpty) = true
    · have hsc' := hsc
      simp only [Bool.and_eq_true, List.isEmpty_iff] at hsc'
      obtain ⟨h1, _⟩ := hsc'
      subst h1
      simp at hs
    · rcases hb : env.ngTasksBuildErr with _ | e
      · simp only [deleteAndWaitForNodegroupsDeletion, hl, hsc, hb, if_false,
          Bool.false_eq_true]
        have htask : NGTask.stack s.nodeGroupName ∈ ngDeletionTasks allStacks env.remoteNGs :=
          List.mem_append_left _ (List.mem_map.mpr ⟨s, hs, rfl⟩)
        have hne : ¬((ngDeletionTasks allStacks env.remoteNGs).filterMap
            (ngTaskResult env)).isEmpty = true := by
          intro hx
          have := (List.filterMap_eq_nil_iff.mp (List.isEmpty_iff.mp hx)) _ htask
          exact herr (by simpa [ngTaskResult] using this)
        simp [hne]
      · simp [deleteAndWaitForNodegroupsDeletion, hl, hsc, hb]
  · simp [deleteAndWaitForNodegroupsDeletion, hl]

/-! ## Rewrite lemmas for the tail segments of Delete -/

theorem deleteClusterStep_trace (env : DeleteEnv) (wait : Bool) :
    ∃ r, (deleteClusterStep env wait).1 = Ev.deleteClusterCall :: r := by
  rcases hd : env.deleteClusterErr with _ | e <;> cases wait
  · exact ⟨[], by simp [deleteClusterStep, hd]⟩
  · exact ⟨[Ev.waitClusterDeleted], by simp [deleteClusterStep, hd]⟩
  · exact ⟨[], by simp [deleteClusterStep, hd]⟩
  · exact ⟨[], by simp [deleteClusterStep, hd]⟩

theorem deleteFromCluster_eq_err (env : DeleteEnv) (wait : Bool) (t : List Ev)
    (e : String) (h : (deleteClusterStep env wait).2 = some e) :
    deleteFromCluster env wait t = (t ++ (deleteClusterStep env wait).1, some e) := by
  simp [deleteFromCluster, h]

theorem deleteFromCluster_eq_ok (env : DeleteEnv) (wait : Bool) (t : List Ev)
    (h : (deleteClusterStep env wait).2 = none) :
    deleteFromCluster env wait t =
      (t ++ (deleteClusterStep env wait).1 ++ (checkForUndeletedStacks env).1,
        (checkForUndeletedStacks env).2) := by
  simp [deleteFromCluster, h]

theorem deleteFromIAM_eq_ok (env : DeleteEnv) (wait force clusterOperable : Bool)
    (t : List Ev) (h : (deleteIAMAndOIDC env.iam clusterOperable).2 = none) :
    deleteFromIAM env wait force clusterOperable t =
      deleteFromCluster env wait (t ++ (deleteIAMAndOIDC env.iam clusterOperable).1) := by
  simp [deleteFromIAM, h]

theorem deleteFromIAM_eq_err_force (env : DeleteEnv) (wait clusterOperable : Bool)
    (t : List Ev) (e : String)
    (h : (deleteIAMAndOIDC env.iam clusterOperable).2 = some e) :
    deleteFromIAM env wait true clusterOperable t =
      deleteFromCluster env wait (t ++ (deleteIAMAndOIDC env.iam clusterOperable).1) := by
  simp [deleteFromIAM, h]

theorem deleteFromIAM_eq_err_noforce (env : DeleteEnv) (wait clusterOperable : Bool)
    (t : List Ev) (e : String)
    (h : (deleteIAMAndOIDC env.iam clusterOperable).2 = some e) :
    deleteFromIAM env wait false clusterOperable t =
      (t ++ (deleteIAMAndOIDC env.iam clusterOperable).1, some e) := by
  simp [deleteFromIAM, h]

theorem deleteFromNodegroups_eq_ok (env : DeleteEnv) (wait force clusterOperable : Bool)
    (t : List Ev) (h : (deleteAndWaitForNodegroupsDeletion env env.ngStacks).2 = none) :
    deleteFromNodegroups env wait force clusterOperable t =
      deleteFromIAM env wait force clusterOperable
        (t ++ (deleteAndWaitForNodegroupsDeletion env env.ngStacks).1) := by
  simp [deleteFromNodegroups, h]

theorem deleteFromNodegroups_eq_err (env : DeleteEnv) (wait force clusterOperable : Bool)
    (t : List Ev) (e : String)
    (h : (deleteAndWaitForNodegroupsDeletion env env.ngStacks).2 = some e) :
    deleteFromNodegroups env wait force clusterOperable t =
      (t ++ (deleteAndWaitForNodegroupsDeletion env env.ngStacks).1, some e) := by
  simp [deleteFromNodegroups, h]

theorem deleteFromFargateRole_eq_ok (env : DeleteEnv) (wait force clusterOperable : Bool)
    (t : List Ev) (h : (deleteFargateRoleIfExists env).2 = none) :
    deleteFromFargateRole env wait force clusterOperable t =
      deleteFromNodegroups env wait force clusterOperable
        (t ++ (deleteFargateRoleIfExists env).1) := by
  simp [deleteFromFargateRole, h]

theorem deleteFromFargateRole_eq_err (env : DeleteEnv) (wait force clusterOperable : Bool)
    (t : List Ev) (e : String) (h : (deleteFargateRoleIfExists env).2 = some e) :
    deleteFromFargateRole env wait force clusterOperable t =
      (t ++ (deleteFargateRoleIfExists env).1, some e) := by
  simp [deleteFromFargateRole, h]

theorem deleteFromShared_eq_ok (env : DeleteEnv) (wait force clusterOperable : Bool)
    (t : List Ev) (h : (deleteSharedResources env.shared clusterOperable).2 = none) :
    deleteFromShared env wait force clusterOperable t =
      deleteFromFargateRole env wait force clusterOperable
        (t ++ (deleteSharedResources env.shared clusterOperable).1) := by
  simp [deleteFromShared, h]

theorem deleteFromShared_eq_err_force (env : DeleteEnv) (wait clusterOperable : Bool)
    (t : List Ev) (e : String)
    (h : (deleteSharedResources env.shared clusterOperable).2 = some e) :
    deleteFromShared env wait true clusterOperable t =
      deleteFromFargateRole env wait true clusterOperable
        (t ++ (deleteSharedResources env.shared clusterOperable).1) := by
  simp [deleteFromShared, h]

theorem deleteFromShared_eq_err_noforce (env : DeleteEnv) (wait clusterOperable : Bool)
    (t : List Ev) (e : String)
    (h : (deleteSharedResources env.shared clusterOperable).2 = some e) :
    deleteFromShared env wait false clusterOperable t =
      (t ++ (deleteSharedResources env.shared clusterOperable).1, some e) := by
  simp [deleteFromShared, h]

/-- Either `UnownedCluster.Delete` aborts before `deleteSharedResources` with
a trace of pre-shared events, or it reduces to the tail segment
`deleteFromShared` applied to such a trace. -/
theorem deleteUnowned_cases (env : DeleteEnv) (wait force : Bool) :
    (∃ t e, deleteUnownedCluster env wait force = (t, some e) ∧
        ∀ ev ∈ t, phaseEvOk ev) ∨
    (∃ t0, deleteUnownedCluster env wait force =
        deleteFromShared env wait force env.canOperate t0 ∧
        ∀ ev ∈ t0, phaseEvOk ev) := by
  have hbase : ∀ ev ∈ [Ev.describeClusterCheck, Ev.listNodeGroupStacks], phaseEvOk ev := by
    intro ev hev
    simp only [List.mem_cons, List.not_mem_nil, or_false] at hev
    rcases hev with rfl | rfl <;> simp [phaseEvOk]
  have hbase1 : ∀ ev ∈ [Ev.describeClusterCheck], phaseEvOk ev := by
    intro ev hev
    simp only [List.mem_singleton] at hev
    subst hev; simp [phaseEvOk]
  have hdrain : ∀ ev ∈ [Ev.describeClusterCheck, Ev.listNodeGroupStacks] ++
      (drainAllNodeGroups env.ngStacks env.drainErr).1, phaseEvOk ev := by
    intro ev hev
    rcases List.mem_append.mp hev with h | h
    · exact hbase ev h
    · exact drainAllNodeGroups_evOk env.ngStacks env.drainErr ev h
  rcases h1 : env.checkClusterErr with _ | e
  · rcases h2 : env.listStacksErr with _ | e
    · cases hop : env.canOperate
      · refine Or.inr ⟨[Ev.describeClusterCheck, Ev.listNodeGroupStacks], ?_, hbase⟩
        simp [deleteUnownedCluster, h1, h2, hop]
      · rcases h3 : env.newClientSetErr with _ | e
        · rcases h4 : (drainAllNodeGroups env.ngStacks env.drainErr).2 with _ | e
          · refine Or.inr ⟨[Ev.describeClusterCheck, Ev.listNodeGroupStacks] ++
              (drainAllNodeGroups env.ngStacks env.drainErr).1, ?_, hdrain⟩
            simp [deleteUnownedCluster, h1, h2, hop, h3, h4]
          · cases force
            · refine Or.inl ⟨[Ev.describeClusterCheck, Ev.listNodeGroupStacks] ++
                (drainAllNodeGroups env.ngStacks env.drainErr).1, e, ?_, hdrain⟩
              simp [deleteUnownedCluster, h1, h2, hop, h3, h4]
            · refine Or.inr ⟨[Ev.describeClusterCheck, Ev.listNodeGroupStacks] ++
                (drainAllNodeGroups env.ngStacks env.drainErr).1, ?_, hdrain⟩
              simp [deleteUnownedCluster, h1, h2, hop, h3, h4]
        · refine Or.inl ⟨[Ev.describeClusterCheck, Ev.listNodeGroupStacks], e, ?_, hbase⟩
          simp [deleteUnownedCluster, h1, h2, hop, h3]
    · refine Or.inl ⟨[Ev.describeClusterCheck, Ev.listNodeGroupStacks], e, ?_, hbase⟩
      simp [deleteUnownedCluster, h1, h2]
  · exact Or.inl ⟨[Ev.describeClusterCheck], e, by simp [deleteUnownedCluster, h1], hbase1⟩

/-! ## The cluster-delete call only happens after all node-group deletions -/

theorem deleteFromCluster_split (env : DeleteEnv) (wait : Bool) (t : List Ev) :
    ∃ t2, (deleteFromCluster env wait t).1 = t ++ Ev.deleteClusterCall :: t2 := by
  obtain ⟨r, hr⟩ := deleteClusterStep_trace env wait
  rcases hd : (deleteClusterStep env wait).2 with _ | e
  · refine ⟨r ++ (checkForUndeletedStacks env).1, ?_⟩
    rw [deleteFromCluster_eq_ok env wait t hd]
    simp [hr]
  · refine ⟨r, ?_⟩
    rw [deleteFromCluster_eq_err env wait t e hd]
    simp [hr]

theorem deleteFromIAM_split (env : DeleteEnv) (wait force clusterOperable : Bool)
    (t : List Ev) (htc : Ev.deleteClusterCall ∉ t) :
    Ev.deleteClusterCall ∉ (deleteFromIAM env wait force clusterOperable t).1 ∨
    ∃ t₁ t₂, (deleteFromIAM env wait force clusterOperable t).1 =
        t₁ ++ Ev.deleteClusterCall :: t₂ ∧
      Ev.deleteClusterCall ∉ t₁ ∧ t <+: t₁ := by
  have hnotin : Ev.deleteClusterCall ∉ t ++ (deleteIAMAndOIDC env.iam clusterOperable).1 := by
    intro hm
    rcases List.mem_append.mp hm with h | h
    · exact htc h
    · exact (deleteIAMAndOIDC_evOk env.iam clusterOperable _ h).1 rfl
  rcases hp : (deleteIAMAndOIDC env.iam clusterOperable).2 with _ | e
  · obtain ⟨t2, ht2⟩ := deleteFromCluster_split env wait
      (t ++ (deleteIAMAndOIDC env.iam clusterOperable).1)
    refine Or.inr ⟨t ++ (deleteIAMAndOIDC env.iam clusterOperable).1, t2, ?_, hnotin,
      List.prefix_append t _⟩
    rw [deleteFromIAM_eq_ok env wait force clusterOperable t hp]
    exact ht2
  · cases force
    · refine Or.inl ?_
      rw [deleteFromIAM_eq_err_noforce env wait clusterOperable t e hp]
      exact hnotin
    · obtain ⟨t2, ht2⟩ := deleteFromCluster_split env wait
        (t ++ (deleteIAMAndOIDC env.iam clusterOperable).1)
      refine Or.inr ⟨t ++ (deleteIAMAndOIDC env.iam clusterOperable).1, t2, ?_, hnotin,
        List.prefix_append t _⟩
      rw [deleteFromIAM_eq_err_force env wait clusterOperable t e hp]
      exact ht2

theorem deleteFromNodegroups_split (env : DeleteEnv) (wait force clusterOperable : Bool)
    (t : List Ev) (htc : Ev.deleteClusterCall ∉ t) :
    Ev.deleteClusterCall ∉ (deleteFromNodegroups env wait force clusterOperable t).1 ∨
    ∃ t₁ t₂, (deleteFromNodegroups env wait force clusterOperable t).1 =
        t₁ ++ Ev.deleteClusterCall :: t₂ ∧
      Ev.deleteClusterCall ∉ t₁ ∧
      ∀ s ∈ env.ngStacks, Ev.ngStackDelete s.nodeGroupName true true ∈ t₁ := by
  have hnotin : Ev.deleteClusterCall ∉
      t ++ (deleteAndWaitForNodegroupsDeletion env env.ngStacks).1 := by
    intro hm
    rcases List.mem_append.mp hm with h | h
    · exact htc h
    · exact (deleteAndWaitForNodegroupsDeletion_evOk env env.ngStacks _ h).1 rfl
  rcases hp : (deleteAndWaitForNodegroupsDeletion env env.ngStacks).2 with _ | e
  · rcases deleteFromIAM_split env wait force clusterOperable
        (t ++ (deleteAndWaitForNodegroupsDeletion env env.ngStacks).1) hnotin with
      h | ⟨t₁, t₂, heq, hn, hpre⟩
    · refine Or.inl ?_
      rw [deleteFromNodegroups_eq_ok env wait force clusterOperable t hp]
      exact h
    · refine Or.inr ⟨t₁, t₂, ?_, hn, ?_⟩
      · rw [deleteFromNodegroups_eq_ok env wait force clusterOperable t hp]
        exact heq
      · intro s hs
        exact hpre.subset (List.mem_append_right t
          (ngPhase_success_events env env.ngStacks hp s hs))
  · refine Or.inl ?_
    rw [deleteFromNodegroups_eq_err env wait force clusterOperable t e hp]
    exact hnotin

theorem deleteFromFargateRole_split (env : DeleteEnv) (wait force clusterOperable : Bool)
    (t : List Ev) (htc : Ev.deleteClusterCall ∉ t) :
    Ev.deleteClusterCall ∉ (deleteFromFargateRole env wait force clusterOperable t).1 ∨
    ∃ t₁ t₂, (deleteFromFargateRole env wait force clusterOperable t).1 =
        t₁ ++ Ev.deleteClusterCall :: t₂ ∧
      Ev.deleteClusterCall ∉ t₁ ∧
      ∀ s ∈ env.ngStacks, Ev.ngStackDelete s.nodeGroupName true true ∈ t₁ := by
  have hnotin : Ev.deleteClusterCall ∉ t ++ (deleteFargateRoleIfExists env).1 := by
    intro hm
    rcases List.mem_append.mp hm with h | h
    · exact htc h
    · exact (deleteFargateRoleIfExists_evOk env _ h).1 rfl
  rcases hp : (deleteFargateRoleIfExists env).2 with _ | e
  · rw [deleteFromFargateRole_eq_ok env wait force clusterOperable t hp]
    exact deleteFromNodegroups_split env wait force clusterOperable _ hnotin
  · refine Or.inl ?_
    rw [deleteFromFargateRole_eq_err env wait force clusterOperable t e hp]
    exact hnotin

theorem deleteFromShared_split (env : DeleteEnv) (wait force clusterOperable : Bool)
    (t : List Ev) (htc : Ev.deleteClusterCall ∉ t) :
    Ev.deleteClusterCall ∉ (deleteFromShared env wait force clusterOperable t).1 ∨
    ∃ t₁ t₂, (deleteFromShared env wait force clusterOperable t).1 =
        t₁ ++ Ev.deleteClusterCall :: t₂ ∧
      Ev.deleteClusterCall ∉ t₁ ∧
      ∀ s ∈ env.ngStacks, Ev.ngStackDelete s.nodeGroupName true true ∈ t₁ := by
  have hnotin : Ev.deleteClusterCall ∉
      t ++ (deleteSharedResources env.shared clusterOperable).1 := by
    intro hm
    rcases List.mem_append.mp hm with h | h
    · exact htc h
    · exact (deleteSharedResources_evOk env.shared clusterOperable _ h).1 rfl
  rcases hp : (deleteSharedResources env.shared clusterOperable).2 with _ | e
  · rw [deleteFromShared_eq_ok env wait force clusterOperable t hp]
    exact deleteFromFargateRole_split env wait force clusterOperable _ hnotin
  · cases force
    · refine Or.inl ?_
      rw [deleteFromShared_eq_err_noforce env wait clusterOperable t e hp]
      exact hnotin
    · rw [deleteFromShared_eq_err_force env wait clusterOperable t e hp]
      exact deleteFromFargateRole_split env wait true clusterOperable _ hnotin

/-! ## Any node-group deletion failure prevents the cluster-delete call -/

theorem deleteFromNodegroups_fail (env : DeleteEnv) (wait force clusterOperable : Bool)
    (t : List Ev) (htc : Ev.deleteClusterCall ∉ t)
    (hf : ∃ s ∈ env.ngStacks, env.ngStackDeleteErr s.nodeGroupName ≠ none) :
    Ev.deleteClusterCall ∉ (deleteFromNodegroups env wait force clusterOperable t).1 := by
  obtain ⟨s, hs, herr⟩ := hf
  have h2 := ngPhase_fail env env.ngStacks s hs herr
  rcases hp : (deleteAndWaitForNodegroupsDeletion env env.ngStacks).2 with _ | e
  · exact absurd hp h2
  · rw [deleteFromNodegroups_eq_err env wait force clusterOperable t e hp]
    intro hm
    rcases List.mem_append.mp hm with h | h
    · exact htc h
    · exact (deleteAndWaitForNodegroupsDeletion_evOk env env.ngStacks _ h).1 rfl

theorem deleteFromFargateRole_fail (env : DeleteEnv) (wait force clusterOperable : Bool)
    (t : List Ev) (htc : Ev.deleteClusterCall ∉ t)
    (hf : ∃ s ∈ env.ngStacks, env.ngStackDeleteErr s.nodeGroupName ≠ none) :
    Ev.deleteClusterCall ∉ (deleteFromFargateRole env wait force clusterOperable t).1 := by
  have hnotin : Ev.deleteClusterCall ∉ t ++ (deleteFargateRoleIfExists env).1 := by
    intro hm
    rcases List.mem_append.mp hm with h | h
    · exact htc h
    · exact (deleteFargateRoleIfExists_evOk env _ h).1 rfl
  rcases hp : (deleteFargateRoleIfExists env).2 with _ | e
  · rw [deleteFromFargateRole_eq_ok env wait force clusterOperable t hp]
    exact deleteFromNodegroups_fail env wait force clusterOperable _ hnotin hf
  · rw [deleteFromFargateRole_eq_err env wait force clusterOperable t e hp]
    exact hnotin

theorem deleteFromShared_fail (env : DeleteEnv) (wait force clusterOperable : Bool)
    (t : List Ev) (htc : Ev.deleteClusterCall ∉ t)
    (hf : ∃ s ∈ env.ngStacks, env.ngStackDeleteErr s.nodeGroupName ≠ none) :
    Ev.deleteClusterCall ∉ (deleteFromShared env wait force clusterOperable t).1 := by
  have hnotin : Ev.deleteClusterCall ∉
      t ++ (deleteSharedResources env.shared clusterOperable).1 := by
    intro hm
    rcases List.mem_append.mp hm with h | h
    · exact htc h
    · exact (deleteSharedResources_evOk env.shared clusterOperable _ h).1 rfl
  rcases hp : (deleteSharedResources env.shared clusterOperable).2 with _ | e
  · rw [deleteFromShared_eq_ok env wait force clusterOperable t hp]
    exact deleteFromFargateRole_fail env wait force clusterOperable _ hnotin hf
  · cases force
    · rw [deleteFromShared_eq_err_noforce env wait clusterOperable t e hp]
      exact hnotin
    · rw [deleteFromShared_eq_err_force env wait clusterOperable t e hp]
      exact deleteFromFargateRole_fail env wait true clusterOperable _ hnotin hf

/-! ## Node-group stack deletions always wait -/

theorem ngWaitTrue_append {t u : List Ev} (ht : ngWaitTrue t)
    (hu : ngWaitTrue u) : ngWaitTrue (t ++ u) := by
  intro n w ok hm
  rcases List.mem_append.mp hm with h | h
  · exact ht n w ok h
  · exact hu n w ok h

theorem ngWaitTrue_of_evOk {t : List Ev} (h : ∀ ev ∈ t, phaseEvOk ev) :
    ngWaitTrue t := fun n w ok hm => (h _ hm).2 n w ok rfl

theorem deleteFromCluster_waits (env : DeleteEnv) (wait : Bool) (t : List Ev)
    (ht : ngWaitTrue t) : ngWaitTrue (deleteFromCluster env wait t).1 := by
  have hstep : ngWaitTrue (deleteClusterStep env wait).1 := by
    intro n w ok hm
    rcases deleteClusterStep_evs env wait _ hm with h | h <;> simp at h
  have hcheck : ngWaitTrue (checkForUndeletedStacks env).1 := by
    intro n w ok hm
    have := checkForUndeletedStacks_evs env _ hm
    simp at this
  rcases hd : (deleteClusterStep env wait).2 with _ | e
  · rw [deleteFromCluster_eq_ok env wait t hd]
    exact ngWaitTrue_append (ngWaitTrue_append ht hstep) hcheck
  · rw [deleteFromCluster_eq_err env wait t e hd]
    exact ngWaitTrue_append ht hstep

theorem deleteFromIAM_waits (env : DeleteEnv) (wait force clusterOperable : Bool)
    (t : List Ev) (ht : ngWaitTrue t) :
    ngWaitTrue (deleteFromIAM env wait force clusterOperable t).1 := by
  have ht' : ngWaitTrue (t ++ (deleteIAMAndOIDC env.iam clusterOperable).1) :=
    ngWaitTrue_append ht
      (ngWaitTrue_of_evOk (deleteIAMAndOIDC_evOk env.iam clusterOperable))
  rcases hp : (deleteIAMAndOIDC env.iam clusterOperable).2 with _ | e
  · rw [deleteFromIAM_eq_ok env wait force clusterOperable t hp]
    exact deleteFromCluster_waits env wait _ ht'
  · cases force
    · rw [deleteFromIAM_eq_err_noforce env wait clusterOperable t e hp]
      exact ht'
    · rw [deleteFromIAM_eq_err_force env wait clusterOperable t e hp]
      exact deleteFromCluster_waits env wait _ ht'

theorem deleteFromNodegroups_waits (env : DeleteEnv) (wait force clusterOperable : Bool)
    (t : List Ev) (ht : ngWaitTrue t) :
    ngWaitTrue (deleteFromNodegroups env wait force clusterOperable t).1 := by
  have ht' : ngWaitTrue (t ++ (deleteAndWaitForNodegroupsDeletion env env.ngStacks).1) :=
    ngWaitTrue_append ht
      (ngWaitTrue_of_evOk (deleteAndWaitForNodegroupsDeletion_evOk env env.ngStacks))
  rcases hp : (deleteAndWaitForNodegroupsDeletion env env.ngStacks).2 with _ | e
  · rw [deleteFromNodegroups_eq_ok env wait force clusterOperable t hp]
    exact deleteFromIAM_waits env wait force clusterOperable _ ht'
  · rw [deleteFromNodegroups_eq_err env wait force clusterOperable t e hp]
    exact ht'

theorem deleteFromFargateRole_waits (env : DeleteEnv) (wait force clusterOperable : Bool)
    (t : List Ev) (ht : ngWaitTrue t) :
    ngWaitTrue (deleteFromFargateRole env wait force clusterOperable t).1 := by
  have ht' : ngWaitTrue (t ++ (deleteFargateRoleIfExists env).1) :=
    ngWaitTrue_append ht (ngWaitTrue_of_evOk (deleteFargateRoleIfExists_evOk env))
  rcases hp : (deleteFargateRoleIfExists env).2 with _ | e
  · rw [deleteFromFargateRole_eq_ok env wait force clusterOperable t hp]
    exact deleteFromNodegroups_waits env wait force clusterOperable _ ht'
  · rw [deleteFromFargateRole_eq_err env wait force clusterOperable t e hp]
    exact ht'

theorem deleteFromShared_waits (env : DeleteEnv) (wait force clusterOperable : Bool)
    (t : List Ev) (ht : ngWaitTrue t) :
    ngWaitTrue (deleteFromShared env wait force clusterOperable t).1 := by
  have ht' : ngWaitTrue (t ++ (deleteSharedResources env.shared clusterOperable).1) :=
    ngWaitTrue_append ht
      (ngWaitTrue_of_evOk (deleteSharedResources_evOk env.shared clusterOperable))
  rcases hp : (deleteSharedResources env.shared clusterOperable).2 with _ | e
  · rw [deleteFromShared_eq_ok env wait force clusterOperable t hp]
    exact deleteFromFargateRole_waits env wait force clusterOperable _ ht'
  · cases force
    · rw [deleteFromShared_eq_err_noforce env wait clusterOperable t e hp]
      exact ht'
    · rw [deleteFromShared_eq_err_force env wait clusterOperable t e hp]
      exact deleteFromFargateRole_waits env wait true clusterOperable _ ht'

/-! ## Claim theorems: deletion ordering -/

/-- C4: the cluster-delete call is never issued before all node-group
deletions complete: whenever the trace of `UnownedCluster.Delete` contains the
cluster-delete call, every node-group stack's deletion appears strictly
earlier in the trace, completed (`ok = true`) and waited-for (`wait = true`,
regardless of the caller's wait flag); any node-group stack deletion failure
keeps the cluster-delete call out of the trace entirely; and every node-group
stack deletion in the trace waited for completion. -/
theorem c4_nodegroups_deleted_before_cluster :
    ∀ (env : DeleteEnv) (wait force : Bool),
      (Ev.deleteClusterCall ∈ (deleteUnownedCluster env wait force).1 →
        ∃ t₁ t₂, (deleteUnownedCluster env wait force).1 =
            t₁ ++ Ev.deleteClusterCall :: t₂ ∧
          Ev.deleteClusterCall ∉ t₁ ∧
          ∀ s ∈ env.ngStacks, Ev.ngStackDelete s.nodeGroupName true true ∈ t₁) ∧
      ((∃ s ∈ env.ngStacks, env.ngStackDeleteErr s.nodeGroupName ≠ none) →
        Ev.deleteClusterCall ∉ (deleteUnownedCluster env wait force).1) ∧
      (∀ n w ok, Ev.ngStackDelete n w ok ∈ (deleteUnownedCluster env wait force).1 →
        w = true) := by
  intro env wait force
  refine ⟨?_, ?_, ?_⟩
  · intro hmem
    rcases deleteUnowned_cases env wait force with ⟨t, e, hEq, hOk⟩ | ⟨t0, hEq, hOk⟩
    · rw [hEq] at hmem
      exact absurd rfl (hOk _ hmem).1
    · have htc : Ev.deleteClusterCall ∉ t0 := fun hm => (hOk _ hm).1 rfl
      rw [hEq] at hmem ⊢
      rcases deleteFromShared_split env wait force env.canOperate t0 htc with
        h | ⟨t₁, t₂, heq, hn, hng⟩
      · exact absurd hmem h
      · exact ⟨t₁, t₂, heq, hn, hng⟩
  · intro hf
    rcases deleteUnowned_cases env wait force with ⟨t, e, hEq, hOk⟩ | ⟨t0, hEq, hOk⟩
    · rw [hEq]
      exact fun hm => (hOk _ hm).1 rfl
    · rw [hEq]
      exact deleteFromShared_fail env wait force env.canOperate t0
        (fun hm => (hOk _ hm).1 rfl) hf
  · rcases deleteUnowned_cases env wait force with ⟨t, e, hEq, hOk⟩ | ⟨t0, hEq, hOk⟩
    · rw [hEq]
      exact ngWaitTrue_of_evOk hOk
    · rw [hEq]
      exact deleteFromShared_waits env wait force env.canOperate t0
        (ngWaitTrue_of_evOk hOk)

theorem c4_nodegroups_deleted_before_cluster_witness :
    Ev.deleteClusterCall ∉
      (deleteUnownedCluster
        { allOkDeleteEnv with
            ngStackDeleteErr := fun n => if n = "a" then some "stack delete failed"
              else none }
        true false).1 :=
  (c4_nodegroups_deleted_before_cluster
      { allOkDeleteEnv with
          ngStackDeleteErr := fun n => if n = "a" then some "stack delete failed"
            else none }
      true false).2.1 ⟨⟨"a"⟩, by simp [allOkDeleteEnv], by simp⟩

/-! ## Completion lemmas: running the remaining steps when they succeed -/

theorem deleteFromCluster_run_ok (env : DeleteEnv) (wait : Bool) (t : List Ev)
    (hc : (deleteClusterStep env wait).2 = none) :
    deleteFromCluster env wait t =
      (t ++ (deleteClusterStep env wait).1 ++ (checkForUndeletedStacks env).1,
        (checkForUndeletedStacks env).2) :=
  deleteFromCluster_eq_ok env wait t hc

theorem deleteFromIAM_run_ok (env : DeleteEnv) (wait force clusterOperable : Bool)
    (t : List Ev) (hi : (deleteIAMAndOIDC env.iam clusterOperable).2 = none)
    (hc : (deleteClusterStep env wait).2 = none) :
    deleteFromIAM env wait force clusterOperable t =
      (t ++ (deleteIAMAndOIDC env.iam clusterOperable).1 ++
        (deleteClusterStep env wait).1 ++ (checkForUndeletedStacks env).1,
        (checkForUndeletedStacks env).2) := by
  rw [deleteFromIAM_eq_ok env wait force clusterOperable t hi,
    deleteFromCluster_run_ok env wait _ hc]

theorem deleteFromNodegroups_run_ok (env : DeleteEnv) (wait force clusterOperable : Bool)
    (t : List Ev) (hn : (deleteAndWaitForNodegroupsDeletion env env.ngStacks).2 = none)
    (hi : (deleteIAMAndOIDC env.iam clusterOperable).2 = none)
    (hc : (deleteClusterStep env wait).2 = none) :
    deleteFromNodegroups env wait force clusterOperable t =
      (t ++ (deleteAndWaitForNodegroupsDeletion env env.ngStacks).1 ++
        (deleteIAMAndOIDC env.iam clusterOperable).1 ++
        (deleteClusterStep env wait).1 ++ (checkForUndeletedStacks env).1,
        (checkForUndeletedStacks env).2) := by
  rw [deleteFromNodegroups_eq_ok env wait force clusterOperable t hn,
    deleteFromIAM_run_ok env wait force clusterOperable _ hi hc]

theorem deleteFromFargateRole_run_ok (env : DeleteEnv) (wait force clusterOperable : Bool)
    (t : List Ev) (hf : (deleteFargateRoleIfExists env).2 = none)
    (hn : (deleteAndWaitForNodegroupsDeletion env env.ngStacks).2 = none)
    (hi : (deleteIAMAndOIDC env.iam clusterOperable).2 = none)
    (hc : (deleteClusterStep env wait).2 = none) :
    deleteFromFargateRole env wait force clusterOperable t =
      (t ++ (deleteFargateRoleIfExists env).1 ++
        (deleteAndWaitForNodegroupsDeletion env env.ngStacks).1 ++
        (deleteIAMAndOIDC env.iam clusterOperable).1 ++
        (deleteClusterStep env wait).1 ++ (checkForUndeletedStacks env).1,
        (checkForUndeletedStacks env).2) := by
  rw [deleteFromFargateRole_eq_ok env wait force clusterOperable t hf,
    deleteFromNodegroups_run_ok env wait force clusterOperable _ hn hi hc]

/-- Reduction of `UnownedCluster.Delete` to the `deleteSharedResources` call
after a successful start (cluster exists, stacks listed, and — when operable — client
set obtained and drain succeeded). -/
theorem deleteUnowned_eq_reach (env : DeleteEnv) (wait force : Bool)
    (h1 : env.checkClusterErr = none) (h2 : env.listStacksErr = none)
    (h3 : env.canOperate = true → env.newClientSetErr = none ∧
      (drainAllNodeGroups env.ngStacks env.drainErr).2 = none) :
    deleteUnownedCluster env wait force =
      deleteFromShared env wait force env.canOperate
        ([Ev.describeClusterCheck, Ev.listNodeGroupStacks] ++
          (if env.canOperate then (drainAllNodeGroups env.ngStacks env.drainErr).1
            else [])) := by
  cases hop : env.canOperate
  · simp [deleteUnownedCluster, h1, h2, hop]
  · obtain ⟨h4, h5⟩ := h3 hop
    simp [deleteUnownedCluster, h1, h2, hop, h4, h5]

/-! ## Claim theorems: scope of the force flag -/

/-- C5 counterexample: the claim that `force` downgrades exactly the drain
step and the IAM/OIDC step is false: a failure of `deleteSharedResources`
(here its load-balancer cleanup) with `force = true` is also merely logged —
the run continues, issues the cluster-delete call and returns success. -/
theorem c5_force_scope_counterexample :
    (deleteSharedResources { allOkSharedEnv with elbErr := some "elb cleanup failed" }
        true).2 = some "elb cleanup failed" ∧
    (deleteUnownedCluster
        { allOkDeleteEnv with
            shared := { allOkSharedEnv with elbErr := some "elb cleanup failed" } }
        true true).2 = none ∧
    Ev.deleteClusterCall ∈
      (deleteUnownedCluster
        { allOkDeleteEnv with
            shared := { allOkSharedEnv with elbErr := some "elb cleanup failed" } }
        true true).1 := by
  refine ⟨rfl, rfl, by decide⟩

/-- C5 (amended): the `force` flag downgrades exactly three steps of
`UnownedCluster.Delete` from fatal to logged-and-continue — the node-group
drain step, the `deleteSharedResources` step, and the IAM/OIDC deletion step —
while a failure of every other step (cluster existence check, stack listing,
client-set construction, Fargate-role deletion, node-group deletion, the
cluster-delete call, the final stack check) aborts or fails the run regardless
of `force`.  Downgraded steps: with `force = false` the run returns the step's
error with no further event; with `force = true` and the remaining steps
succeeding, the run continues to the end and issues the cluster-delete call. -/
theorem c5_amended_force_scope :
    ∀ (env : DeleteEnv) (wait : Bool) (e : String),
      (env.checkClusterErr = none → env.listStacksErr = none →
        env.canOperate = true → env.newClientSetErr = none →
        (drainAllNodeGroups env.ngStacks env.drainErr).2 = some e →
        (deleteUnownedCluster env wait false =
          ([Ev.describeClusterCheck, Ev.listNodeGroupStacks] ++
            (drainAllNodeGroups env.ngStacks env.drainErr).1, some e)) ∧
        ((deleteSharedResources env.shared true).2 = none →
          (deleteFargateRoleIfExists env).2 = none →
          (deleteAndWaitForNodegroupsDeletion env env.ngStacks).2 = none →
          (deleteIAMAndOIDC env.iam true).2 = none →
          (deleteClusterStep env wait).2 = none →
          (deleteUnownedCluster env wait true).2 = (checkForUndeletedStacks env).2 ∧
          Ev.deleteClusterCall ∈ (deleteUnownedCluster env wait true).1)) ∧
      (env.checkClusterErr = none → env.listStacksErr = none →
        (env.canOperate = true → env.newClientSetErr = none ∧
          (drainAllNodeGroups env.ngStacks env.drainErr).2 = none) →
        (deleteSharedResources env.shared env.canOperate).2 = some e →
        (deleteUnownedCluster env wait false =
          ([Ev.describeClusterCheck, Ev.listNodeGroupStacks] ++
            (if env.canOperate then (drainAllNodeGroups env.ngStacks env.drainErr).1
              else []) ++
            (deleteSharedResources env.shared env.canOperate).1, some e)) ∧
        ((deleteFargateRoleIfExists env).2 = none →
          (deleteAndWaitForNodegroupsDeletion env env.ngStacks).2 = none →
          (deleteIAMAndOIDC env.iam env.canOperate).2 = none →
          (deleteClusterStep env wait).2 = none →
          (deleteUnownedCluster env wait true).2 = (checkForUndeletedStacks env).2 ∧
          Ev.deleteClusterCall ∈ (deleteUnownedCluster env wait true).1)) ∧
      (env.checkClusterErr = none → env.listStacksErr = none →
        (env.canOperate = true → env.newClientSetErr = none ∧
          (drainAllNodeGroups env.ngStacks env.drainErr).2 = none) →
        (deleteSharedResources env.shared env.canOperate).2 = none →
        (deleteFargateRoleIfExists env).2 = none →
        (deleteAndWaitForNodegroupsDeletion env env.ngStacks).2 = none →
        (deleteIAMAndOIDC env.iam env.canOperate).2 = some e →
        (deleteUnownedCluster env wait false =
          ([Ev.describeClusterCheck, Ev.listNodeGroupStacks] ++
            (if env.canOperate then (drainAllNodeGroups env.ngStacks env.drainErr).1
              else []) ++
            (deleteSharedResources env.shared env.canOperate).1 ++
            (deleteFargateRoleIfExists env).1 ++
            (deleteAndWaitForNodegroupsDeletion env env.ngStacks).1 ++
            (deleteIAMAndOIDC env.iam env.canOperate).1, some e)) ∧
        ((deleteClusterStep env wait).2 = none →
          (deleteUnownedCluster env wait true).2 = (checkForUndeletedStacks env).2 ∧
          Ev.deleteClusterCall ∈ (deleteUnownedCluster env wait true).1)) ∧
      (∀ force, env.checkClusterErr = some e →
        deleteUnownedCluster env wait force = ([Ev.describeClusterCheck], some e)) ∧
      (∀ force, env.checkClusterErr = none → env.listStacksErr = some e →
        deleteUnownedCluster env wait force =
          ([Ev.describeClusterCheck, Ev.listNodeGroupStacks], some e)) ∧
      (∀ force, env.checkClusterErr = none → env.listStacksErr = none →
        env.canOperate = true → env.newClientSetErr = some e →
        deleteUnownedCluster env wait force =
          ([Ev.describeClusterCheck, Ev.listNodeGroupStacks], some e)) ∧
      (∀ force, env.checkClusterErr = none → env.listStacksErr = none →
        (env.canOperate = true → env.newClientSetErr = none ∧
          (drainAllNodeGroups env.ngStacks env.drainErr).2 = none) →
        (deleteSharedResources env.shared env.canOperate).2 = none →
        (deleteFargateRoleIfExists env).2 = some e →
        deleteUnownedCluster env wait force =
          ([Ev.describeClusterCheck, Ev.listNodeGroupStacks] ++
            (if env.canOperate then (drainAllNodeGroups env.ngStacks env.drainErr).1
              else []) ++
            (deleteSharedResources env.shared env.canOperate).1 ++
            (deleteFargateRoleIfExists env).1, some e)) ∧
      (∀ force, env.checkClusterErr = none → env.listStacksErr = none →
        (env.canOperate = true → env.newClientSetErr = none ∧
          (drainAllNodeGroups env.ngStacks env.drainErr).2 = none) →
        (deleteSharedResources env.shared env.canOperate).2 = none →
        (deleteFargateRoleIfExists env).2 = none →
        (deleteAndWaitForNodegroupsDeletion env env.ngStacks).2 = some e →
        deleteUnownedCluster env wait force =
          ([Ev.describeClusterCheck, Ev.listNodeGroupStacks] ++
            (if env.canOperate then (drainAllNodeGroups env.ngStacks env.drainErr).1
              else []) ++
            (deleteSharedResources env.shared env.canOperate).1 ++
            (deleteFargateRoleIfExists env).1 ++
            (deleteAndWaitForNodegroupsDeletion env env.ngStacks).1, some e)) ∧
      (∀ force, env.checkClusterErr = none → env.listStacksErr = none →
        (env.canOperate = true → env.newClientSetErr = none ∧
          (drainAllNodeGroups env.ngStacks env.drainErr).2 = none) →
        (deleteSharedResources env.shared env.canOperate).2 = none →
        (deleteFargateRoleIfExists env).2 = none →
        (deleteAndWaitForNodegroupsDeletion env env.ngStacks).2 = none →
        (deleteIAMAndOIDC env.iam env.canOperate).2 = none →
        (deleteClusterStep env wait).2 = some e →
        deleteUnownedCluster env wait force =
          ([Ev.describeClusterCheck, Ev.listNodeGroupStacks] ++
            (if env.canOperate then (drainAllNodeGroups env.ngStacks env.drainErr).1
              else []) ++
            (deleteSharedResources env.shared env.canOperate).1 ++
            (deleteFargateRoleIfExists env).1 ++
            (deleteAndWaitForNodegroupsDeletion env env.ngStacks).1 ++
            (deleteIAMAndOIDC env.iam env.canOperate).1 ++
            (deleteClusterStep env wait).1, some e)) ∧
      (∀ force, env.checkClusterErr = none → env.listStacksErr = none →
        (env.canOperate = true → env.newClientSetErr = none ∧
          (drainAllNodeGroups env.ngStacks env.drainErr).2 = none) →
        (deleteSharedResources env.shared env.canOperate).2 = none →
        (deleteFargateRoleIfExists env).2 = none →
        (deleteAndWaitForNodegroupsDeletion env env.ngStacks).2 = none →
        (deleteIAMAndOIDC env.iam env.canOperate).2 = none →
        (deleteClusterStep env wait).2 = none →
        deleteUnownedCluster env wait force =
          ([Ev.describeClusterCheck, Ev.listNodeGroupStacks] ++
            (if env.canOperate then (drainAllNodeGroups env.ngStacks env.drainErr).1
              else []) ++
            (deleteSharedResources env.shared env.canOperate).1 ++
            (deleteFargateRoleIfExists env).1 ++
            (deleteAndWaitForNodegroupsDeletion env env.ngStacks).1 ++
            (deleteIAMAndOIDC env.iam env.canOperate).1 ++
            (deleteClusterStep env wait).1 ++ (checkForUndeletedStacks env).1,
            (checkForUndeletedStacks env).2)) := by
  intro env wait e
  refine ⟨?_, ?_, ?_, ?_, ?_, ?_, ?_, ?_, ?_, ?_⟩
  · intro h1 h2 hop hcs hd
    constructor
    · simp [deleteUnownedCluster, h1, h2, hop, hcs, hd]
    · intro hs hf hn hi hc
      have hEq : deleteUnownedCluster env wait true =
          deleteFromShared env wait true true
            ([Ev.describeClusterCheck, Ev.listNodeGroupStacks] ++
              (drainAllNodeGroups env.ngStacks env.drainErr).1) := by
        simp [deleteUnownedCluster, h1, h2, hop, hcs, hd]
      rw [hEq, deleteFromShared_eq_ok env wait true true _ hs,
        deleteFromFargateRole_run_ok env wait true true _ hf hn hi hc]
      refine ⟨rfl, ?_⟩
      simp only [List.mem_append]
      exact Or.inl (Or.inr (deleteClusterStep_hasCall env wait))
  · intro h1 h2 h3 h4
    constructor
    · rw [deleteUnowned_eq_reach env wait false h1 h2 h3,
        deleteFromShared_eq_err_noforce env wait env.canOperate _ e h4]
    · intro hf hn hi hc
      rw [deleteUnowned_eq_reach env wait true h1 h2 h3,
        deleteFromShared_eq_err_force env wait env.canOperate _ e h4,
        deleteFromFargateRole_run_ok env wait true env.canOperate _ hf hn hi hc]
      refine ⟨rfl, ?_⟩
      simp only [List.mem_append]
      exact Or.inl (Or.inr (deleteClusterStep_hasCall env wait))
  · intro h1 h2 h3 hs hf hn hiam
    constructor
    · rw [deleteUnowned_eq_reach env wait false h1 h2 h3,
        deleteFromShared_eq_ok env wait false env.canOperate _ hs,
        deleteFromFargateRole_eq_ok env wait false env.canOperate _ hf,
        deleteFromNodegroups_eq_ok env wait false env.canOperate _ hn,
        deleteFromIAM_eq_err_noforce env wait env.canOperate _ e hiam]
    · intro hc
      rw [deleteUnowned_eq_reach env wait true h1 h2 h3,
        deleteFromShared_eq_ok env wait true env.canOperate _ hs,
        deleteFromFargateRole_eq_ok env wait true env.canOperate _ hf,
        deleteFromNodegroups_eq_ok env wait true env.canOperate _ hn,
        deleteFromIAM_eq_err_force env wait env.canOperate _ e hiam,
        deleteFromCluster_run_ok env wait _ hc]
      refine ⟨rfl, ?_⟩
      simp only [List.mem_append]
      exact Or.inl (Or.inr (deleteClusterStep_hasCall env wait))
  · intro force h
    simp [deleteUnownedCluster, h]
  · intro force h1 h2
    simp [deleteUnownedCluster, h1, h2]
  · intro force h1 h2 hop hcs
    simp [deleteUnownedCluster, h1, h2, hop, hcs]
  · intro force h1 h2 h3 hs hf
    rw [deleteUnowned_eq_reach env wait force h1 h2 h3,
      deleteFromShared_eq_ok env wait force env.canOperate _ hs,
      deleteFromFargateRole_eq_err env wait force env.canOperate _ e hf]
  · intro force h1 h2 h3 hs hf hn
    rw [deleteUnowned_eq_reach env wait force h1 h2 h3,
      deleteFromShared_eq_ok env wait force env.canOperate _ hs,
      deleteFromFargateRole_eq_ok env wait force env.canOperate _ hf,
      deleteFromNodegroups_eq_err env wait force env.canOperate _ e hn]
  · intro force h1 h2 h3 hs hf hn hi hc
    rw [deleteUnowned_eq_reach env wait force h1 h2 h3,
      deleteFromShared_eq_ok env wait force env.canOperate _ hs,
      deleteFromFargateRole_eq_ok env wait force env.canOperate _ hf,
      deleteFromNodegroups_eq_ok env wait force env.canOperate _ hn,
      deleteFromIAM_eq_ok env wait force env.canOperate _ hi,
      deleteFromCluster_eq_err env wait _ e hc]
  · intro force h1 h2 h3 hs hf hn hi hc
    rw [deleteUnowned_eq_reach env wait force h1 h2 h3,
      deleteFromShared_eq_ok env wait force env.canOperate _ hs,
      deleteFromFargateRole_run_ok env wait force env.canOperate _ hf hn hi hc]

theorem c5_amended_force_scope_witness :
    deleteUnownedCluster
        { allOkDeleteEnv with
            shared := { allOkSharedEnv with elbErr := some "elb cleanup failed" } }
        true false =
      ([Ev.describeClusterCheck, Ev.listNodeGroupStacks, Ev.drain, Ev.vpcCniDelete,
        Ev.sshDeleteKeys, Ev.kubeconfigDelete, Ev.elbCleanup],
        some "elb cleanup failed") :=
  ((c5_amended_force_scope
      { allOkDeleteEnv with
          shared := { allOkSharedEnv with elbErr := some "elb cleanup failed" } }
      true "elb cleanup failed").2.1 rfl rfl (fun _ => ⟨rfl, rfl⟩) rfl).1

end Eksctl
